import Mathlib

/-!
Verification development for the G0C compiler and virtual machine
(lexer.cpp / parser.cpp / codegen.cpp / vm.cpp of the repository).

The C++ sources are shallowly embedded: every definition below mirrors a
function of the sources, sharing its name where Lean allows.  Machine
integers (`int32_t`) are modelled as `Int`, with explicit two's-complement
wrapping where the sources wrap; `size_t` casts go through `% 2 ^ 64`.
C++ `float` values are modelled as exact rationals: the IEEE binary32
*bit encoding* of immediates is reproduced exactly (see `encodeFloat32` /
`decodeFloat32`), while the rounding of FPU arithmetic is abstracted to
exact rational arithmetic (no claim below depends on rounding).
Standard output is modelled as a list of output events; standard input as
lists of pending integers and lines.
-/

namespace G0C

/-- Token kinds: one constructor per enumerator of `TokenType` in lexer.h. -/
inductive TokenType where
  | NUMBER | IDENTIFIER | OPERATOR | KEYWORD | STRING | CHARACTER | COMMENT
  | LEFT_PAREN | RIGHT_PAREN | LEFT_BRACE | RIGHT_BRACE | LEFT_BRACKET | RIGHT_BRACKET
  | COMMA | SEMICOLON | COLON | DOT
  | LESS | GREATER | LESS_EQUAL | GREATER_EQUAL | LEFT_SHIFT | RIGHT_SHIFT
  | ARROW | ARROW_STAR | DOT_STAR
  | END_OF_FILE | UNKNOWN | PREPROCESSOR | NEWLINE
  | ACCESS_SPECIFIER | TYPE_SPECIFIER | STORAGE_CLASS | TYPE_QUALIFIER
  | SCOPE_RESOLUTION | ELLIPSIS
deriving DecidableEq, Repr

/-- The `Token` structure of lexer.h: kind, literal value, 1-based line and column. -/
structure Token where
  type : TokenType
  value : String
  line : Nat
  column : Nat
deriving DecidableEq, Repr

/-- The `keywords` map of the `Lexer` constructor, including the
`STORAGE_CLASS` and `TYPE_QUALIFIER` entries inserted into it. -/
def keywords (s : String) : Option TokenType :=
  match s with
  | "if" | "else" | "while" | "for" | "do" | "switch" | "case" | "default"
  | "break" | "continue" | "return" | "goto"
  | "try" | "catch" | "throw"
  | "this" | "virtual" | "explicit" | "friend" | "inline" | "operator"
  | "template" | "typename" | "mutable"
  | "namespace" | "using"
  | "dynamic_cast" | "static_cast" | "const_cast" | "reinterpret_cast" | "typeid"
  | "new" | "delete" | "sizeof"
  | "asm" | "export" | "wchar_t" | "bool" | "true" | "false" => some .KEYWORD
  | "static" | "extern" | "auto" | "register" => some .STORAGE_CLASS
  | "const" | "volatile" => some .TYPE_QUALIFIER
  | _ => none

/-- The `type_keywords` map of the `Lexer` constructor. -/
def type_keywords (s : String) : Option TokenType :=
  match s with
  | "void" | "char" | "short" | "int" | "long" | "float" | "double"
  | "signed" | "unsigned" | "class" | "struct" | "union" | "enum"
  | "typedef" => some .TYPE_SPECIFIER
  | _ => none

/-- The `access_specifiers` map of the `Lexer` constructor. -/
def access_specifiers (s : String) : Option TokenType :=
  match s with
  | "public" | "private" | "protected" => some .ACCESS_SPECIFIER
  | _ => none

/-- The `single_operators` string of the `Lexer` constructor. -/
def single_operators : List Char := "+-*/=!&|^%~?".toList

/-- The `multi_char_operators` map; only its two-character keys can ever be
looked up (the lookup key is always a two-character substring). -/
def multi_char_operators (s : String) : Option TokenType :=
  match s with
  | "++" | "--" | "+=" | "-=" | "*=" | "/=" | "%="
  | "==" | "!=" | "&&" | "||" | "!"
  | "&=" | "|=" | "^=" | "<<" | ">>" | "<<=" | ">>=" => some .OPERATOR
  | _ => none

/-- `Lexer::categorizeKeyword`. -/
def categorizeKeyword (value : String) (line column : Nat) : Token :=
  match access_specifiers value with
  | some t => ⟨t, value, line, column⟩
  | none =>
    match type_keywords value with
    | some t => ⟨t, value, line, column⟩
    | none =>
      match keywords value with
      | some t => ⟨t, value, line, column⟩
      | none => ⟨.IDENTIFIER, value, line, column⟩

/-- ASCII `std::isdigit`. -/
def isDigitC (c : Char) : Bool := '0' ≤ c ∧ c ≤ '9'

/-- ASCII `std::isalpha`. -/
def isAlphaC (c : Char) : Bool := ('a' ≤ c ∧ c ≤ 'z') ∨ ('A' ≤ c ∧ c ≤ 'Z')

/-- ASCII `std::isalnum`. -/
def isAlnumC (c : Char) : Bool := isDigitC c || isAlphaC c

/-- ASCII `std::tolower`. -/
def toLowerC (c : Char) : Char :=
  if 'A' ≤ c ∧ c ≤ 'Z' then Char.ofNat (c.toNat + 32) else c

/-- The mutable scanning state of the `Lexer` class: source text, byte
position, 1-based line and column, and the error flag. -/
structure LexState where
  source : List Char
  position : Nat
  line : Nat
  column : Nat
  error_flag : Bool
deriving DecidableEq, Repr

/-- The character `source[position]` (total: 0 beyond the end; the sources
only read it in bounds). -/
def LexState.cur (s : LexState) : Char :=
  s.source.getD s.position (Char.ofNat 0)

/-- The character `source[position + k]`. -/
def LexState.at (s : LexState) (k : Nat) : Char :=
  s.source.getD (s.position + k) (Char.ofNat 0)

/-- `Lexer::advance`. -/
def LexState.advance (s : LexState) : LexState :=
  if s.position < s.source.length then
    { s with position := s.position + 1, column := s.column + 1 }
  else s

/-- `Lexer::reportError` (stderr output dropped; only the flag matters). -/
def LexState.reportError (s : LexState) : LexState :=
  { s with error_flag := true }

/-- `source.substr(start, count)` rendered as a string. -/
def sliceStr (src : List Char) (start count : Nat) : String :=
  String.mk ((src.drop start).take count)

/-- The loop of `Lexer::skipWhitespace`; the fuel only bounds the
iteration count (every iteration advances the position, so the fuel chosen
by the wrapper below never runs out). -/
def skipWhitespaceAux : Nat → LexState → LexState
  | 0, s => s
  | fuel + 1, s =>
    if s.position < s.source.length then
      let c := s.cur
      if c = ' ' ∨ c = '\t' ∨ c = '\r' then
        skipWhitespaceAux fuel s.advance
      else if c = '\n' then
        skipWhitespaceAux fuel ({ s with line := s.line + 1, column := 1 }).advance
      else s
    else s

/-- `Lexer::skipWhitespace`. -/
def skipWhitespace (s : LexState) : LexState :=
  skipWhitespaceAux (s.source.length - s.position + 1) s

/-- The scanning loop of `Lexer::readNumber` (fuel as in
`skipWhitespaceAux`). -/
def readNumberLoopAux : Nat → LexState → Bool → Bool → LexState
  | 0, s, _, _ => s
  | fuel + 1, s, has_dot, has_exponent =>
    if s.position < s.source.length then
      let c := s.cur
      if isDigitC c then
        readNumberLoopAux fuel s.advance has_dot has_exponent
      else if c = '.' ∧ ¬ has_dot ∧ ¬ has_exponent then
        readNumberLoopAux fuel s.advance true has_exponent
      else if (c = 'e' ∨ c = 'E') ∧ ¬ has_exponent then
        -- handle sign in exponent
        let s1 := s.advance
        let s2 := if s1.position < s1.source.length ∧ (s1.cur = '+' ∨ s1.cur = '-')
                  then s1.advance else s1
        readNumberLoopAux fuel s2 has_dot true
      else s
    else s

/-- The scanning loop of `Lexer::readNumber`. -/
def readNumberLoop (s : LexState) (has_dot has_exponent : Bool) : LexState :=
  readNumberLoopAux (s.source.length - s.position + 1) s has_dot has_exponent

/-- `Lexer::readNumber`. -/
def readNumber (s : LexState) : Token × LexState :=
  let start := s.position
  let startLine := s.line
  let startColumn := s.column
  let s1 := readNumberLoop s false false
  -- check suffixes (f, L, etc.)
  let s2 :=
    if s1.position < s1.source.length then
      let suffix := toLowerC s1.cur
      if suffix = 'f' ∨ suffix = 'l' ∨ suffix = 'u' then
        let sa := s1.advance
        if sa.position < sa.source.length ∧ toLowerC sa.cur = 'l' then
          let sb := sa.advance
          if sb.position < sb.source.length ∧ toLowerC sb.cur = 'l' then sb.advance else sb
        else sa
      else s1
    else s1
  (⟨.NUMBER, sliceStr s.source start (s2.position - start), startLine, startColumn⟩, s2)

/-- The scanning loop of `Lexer::readIdentifier` (fuel as in
`skipWhitespaceAux`). -/
def readIdentLoopAux : Nat → LexState → LexState
  | 0, s => s
  | fuel + 1, s =>
    if s.position < s.source.length then
      if isAlnumC s.cur || s.cur = '_' then readIdentLoopAux fuel s.advance else s
    else s

/-- The scanning loop of `Lexer::readIdentifier`. -/
def readIdentLoop (s : LexState) : LexState :=
  readIdentLoopAux (s.source.length - s.position + 1) s

/-- `Lexer::readIdentifier`. -/
def readIdentifier (s : LexState) : Token × LexState :=
  let start := s.position
  let s1 := readIdentLoop s
  (⟨.IDENTIFIER, sliceStr s.source start (s1.position - start), s.line, s.column⟩, s1)

/-- The scanning loop of `Lexer::readString` (fuel as in
`skipWhitespaceAux`). -/
def readStringLoopAux : Nat → LexState → Bool → LexState
  | 0, s, _ => s
  | fuel + 1, s, escape =>
    if s.position < s.source.length then
      let c := s.cur
      if escape then readStringLoopAux fuel s.advance false
      else if c = '\\' then readStringLoopAux fuel s.advance true
      else if c = '"' then s
      else if c = '\n' then
        readStringLoopAux fuel ({ s with line := s.line + 1, column := 1 }).advance false
      else readStringLoopAux fuel s.advance false
    else s

/-- The scanning loop of `Lexer::readString`. -/
def readStringLoop (s : LexState) (escape : Bool) : LexState :=
  readStringLoopAux (s.source.length - s.position + 1) s escape

/-- `Lexer::readString`. -/
def readString (s : LexState) : Token × LexState :=
  let start := s.position
  let startLine := s.line
  let startColumn := s.column
  let s1 := readStringLoop s.advance false
  let s2 := if s1.position < s1.source.length then s1.advance else s1.reportError
  (⟨.STRING, sliceStr s.source (start + 1) (s2.position - start - 2), startLine, startColumn⟩, s2)

/-- The scanning loop of `Lexer::readCharacter` (fuel as in
`skipWhitespaceAux`). -/
def readCharLoopAux : Nat → LexState → Bool → LexState
  | 0, s, _ => s
  | fuel + 1, s, escape =>
    if s.position < s.source.length then
      let c := s.cur
      if escape then readCharLoopAux fuel s.advance false
      else if c = '\\' then readCharLoopAux fuel s.advance true
      else if c = '\x27' then s
      else readCharLoopAux fuel s.advance false
    else s

/-- The scanning loop of `Lexer::readCharacter`. -/
def readCharLoop (s : LexState) (escape : Bool) : LexState :=
  readCharLoopAux (s.source.length - s.position + 1) s escape

/-- `Lexer::readCharacter`. -/
def readCharacter (s : LexState) : Token × LexState :=
  let start := s.position
  let startLine := s.line
  let startColumn := s.column
  let s1 := readCharLoop s.advance false
  let s2 := if s1.position < s1.source.length then s1.advance else s1.reportError
  (⟨.CHARACTER, sliceStr s.source (start + 1) (s2.position - start - 2), startLine, startColumn⟩, s2)

/-- The scanning loop of `Lexer::readSingleLineComment` (fuel as in
`skipWhitespaceAux`). -/
def readSLCLoopAux : Nat → LexState → LexState
  | 0, s => s
  | fuel + 1, s =>
    if s.position < s.source.length then
      if s.cur ≠ '\n' then readSLCLoopAux fuel s.advance else s
    else s

/-- The scanning loop of `Lexer::readSingleLineComment`. -/
def readSLCLoop (s : LexState) : LexState :=
  readSLCLoopAux (s.source.length - s.position + 1) s

/-- `Lexer::readSingleLineComment`. -/
def readSingleLineComment (s : LexState) : Token × LexState :=
  let start := s.position
  let s1 := readSLCLoop s.advance.advance
  (⟨.COMMENT, sliceStr s.source (start + 2) (s1.position - start - 2), s.line, s.column⟩, s1)

/-- The scanning loop of `Lexer::readMultiLineComment` (fuel as in
`skipWhitespaceAux`). -/
def readMLCLoopAux : Nat → LexState → LexState
  | 0, s => s
  | fuel + 1, s =>
    if s.position < s.source.length then
      if s.cur = '\n' then
        readMLCLoopAux fuel ({ s with line := s.line + 1, column := 1 }).advance
      else if s.cur = '*' ∧ s.position + 1 < s.source.length ∧ s.at 1 = '/' then
        s.advance.advance
      else readMLCLoopAux fuel s.advance
    else s

/-- The scanning loop of `Lexer::readMultiLineComment`. -/
def readMLCLoop (s : LexState) : LexState :=
  readMLCLoopAux (s.source.length - s.position + 1) s

/-- `Lexer::readMultiLineComment`. -/
def readMultiLineComment (s : LexState) : Token × LexState :=
  let start := s.position
  let s1 := readMLCLoop s.advance.advance
  let s2 := if s1.position ≥ s1.source.length then s1.reportError else s1
  (⟨.COMMENT, sliceStr s.source (start + 2) (s2.position - start - 4), s.line, s.column⟩, s2)

/-- `Lexer::readOperator`. -/
def readOperator (s : LexState) : Token × LexState :=
  let startLine := s.line
  let startColumn := s.column
  let current := s.cur
  if current = '<' then
    if s.position + 2 < s.source.length ∧ s.at 1 = '<' ∧ s.at 2 = '=' then
      (⟨.OPERATOR, "<<=", startLine, startColumn⟩, s.advance.advance.advance)
    else if s.position + 1 < s.source.length ∧ s.at 1 = '<' then
      (⟨.LEFT_SHIFT, "<<", startLine, startColumn⟩, s.advance.advance)
    else if s.position + 1 < s.source.length ∧ s.at 1 = '=' then
      (⟨.LESS_EQUAL, "<=", startLine, startColumn⟩, s.advance.advance)
    else (⟨.LESS, "<", startLine, startColumn⟩, s.advance)
  else if current = '>' then
    if s.position + 2 < s.source.length ∧ s.at 1 = '>' ∧ s.at 2 = '=' then
      (⟨.OPERATOR, ">>=", startLine, startColumn⟩, s.advance.advance.advance)
    else if s.position + 1 < s.source.length ∧ s.at 1 = '>' then
      (⟨.RIGHT_SHIFT, ">>", startLine, startColumn⟩, s.advance.advance)
    else if s.position + 1 < s.source.length ∧ s.at 1 = '=' then
      (⟨.GREATER_EQUAL, ">=", startLine, startColumn⟩, s.advance.advance)
    else (⟨.GREATER, ">", startLine, startColumn⟩, s.advance)
  else if current = '-' then
    if s.position + 2 < s.source.length ∧ s.at 1 = '>' ∧ s.at 2 = '*' then
      (⟨.ARROW_STAR, "->*", startLine, startColumn⟩, s.advance.advance.advance)
    else if s.position + 1 < s.source.length ∧ s.at 1 = '>' then
      (⟨.ARROW, "->", startLine, startColumn⟩, s.advance.advance)
    else if s.position + 1 < s.source.length ∧ s.at 1 = '-' then
      (⟨.OPERATOR, "--", startLine, startColumn⟩, s.advance.advance)
    else if s.position + 1 < s.source.length ∧ s.at 1 = '=' then
      (⟨.OPERATOR, "-=", startLine, startColumn⟩, s.advance.advance)
    else (⟨.OPERATOR, "-", startLine, startColumn⟩, s.advance)
  else if current = ':' then
    if s.position + 1 < s.source.length ∧ s.at 1 = ':' then
      (⟨.SCOPE_RESOLUTION, "::", startLine, startColumn⟩, s.advance.advance)
    else (⟨.COLON, ":", startLine, startColumn⟩, s.advance)
  else if current = '.' then
    if s.position + 2 < s.source.length ∧ s.at 1 = '.' ∧ s.at 2 = '.' then
      (⟨.ELLIPSIS, "...", startLine, startColumn⟩, s.advance.advance.advance)
    else if s.position + 1 < s.source.length ∧ s.at 1 = '*' then
      (⟨.DOT_STAR, ".*", startLine, startColumn⟩, s.advance.advance)
    else (⟨.DOT, ".", startLine, startColumn⟩, s.advance)
  else
    let twoChar := String.mk [current, s.at 1]
    if s.position + 1 < s.source.length ∧ (multi_char_operators twoChar).isSome then
      (⟨(multi_char_operators twoChar).getD .OPERATOR, twoChar, startLine, startColumn⟩,
        s.advance.advance)
    else
      (⟨.OPERATOR, String.mk [current], startLine, startColumn⟩, s.advance)

/-- `Lexer::readPunctuation`. -/
def readPunctuation (s : LexState) : Token × LexState :=
  let startLine := s.line
  let startColumn := s.column
  let current := s.cur
  let value := String.mk [current]
  if current = '(' then (⟨.LEFT_PAREN, value, startLine, startColumn⟩, s.advance)
  else if current = ')' then (⟨.RIGHT_PAREN, value, startLine, startColumn⟩, s.advance)
  else if current = '\x7b' then (⟨.LEFT_BRACE, value, startLine, startColumn⟩, s.advance)
  else if current = '\x7d' then (⟨.RIGHT_BRACE, value, startLine, startColumn⟩, s.advance)
  else if current = '[' then (⟨.LEFT_BRACKET, value, startLine, startColumn⟩, s.advance)
  else if current = ']' then (⟨.RIGHT_BRACKET, value, startLine, startColumn⟩, s.advance)
  else if current = ',' then (⟨.COMMA, value, startLine, startColumn⟩, s.advance)
  else if current = ';' then (⟨.SEMICOLON, value, startLine, startColumn⟩, s.advance)
  else if current = ':' then
    if s.position + 1 < s.source.length ∧ s.at 1 = ':' then
      (⟨.SCOPE_RESOLUTION, "::", startLine, startColumn⟩, s.advance.advance)
    else (⟨.COLON, value, startLine, startColumn⟩, s.advance)
  else if current = '.' then (⟨.DOT, value, startLine, startColumn⟩, s.advance)
  else
    (⟨.UNKNOWN, value, startLine, startColumn⟩, s.reportError.advance)

/-- The scanning loop of `Lexer::readPreprocessor` (fuel as in
`skipWhitespaceAux`). -/
def readPreprocLoopAux : Nat → LexState → LexState
  | 0, s => s
  | fuel + 1, s =>
    if s.position < s.source.length then
      if s.cur ≠ '\n' then readPreprocLoopAux fuel s.advance else s
    else s

/-- The scanning loop of `Lexer::readPreprocessor`. -/
def readPreprocLoop (s : LexState) : LexState :=
  readPreprocLoopAux (s.source.length - s.position + 1) s

/-- `Lexer::readPreprocessor`. -/
def readPreprocessor (s : LexState) : Token × LexState :=
  let start := s.position
  let s1 := readPreprocLoop s.advance
  (⟨.PREPROCESSOR, sliceStr s.source start (s1.position - start), s.line, s.column⟩, s1)

/-- `Lexer::getNextToken`. -/
def getNextToken (s : LexState) : Token × LexState :=
  let current := s.cur
  if current = '#' then readPreprocessor s
  else if isDigitC current then readNumber s
  else if isAlphaC current || current = '_' then
    let (ident, s1) := readIdentifier s
    if ident.type = .IDENTIFIER then
      (categorizeKeyword ident.value ident.line ident.column, s1)
    else (ident, s1)
  else if current = '"' then readString s
  else if current = '\x27' then readCharacter s
  else if current = '/' ∧ s.position + 1 < s.source.length ∧ s.at 1 = '/' then
    readSingleLineComment s
  else if current = '/' ∧ s.position + 1 < s.source.length ∧ s.at 1 = '*' then
    readMultiLineComment s
  else if current = '<' ∨ current = '>' then readOperator s
  else if current ∈ single_operators then readOperator s
  else readPunctuation s

/-- The while loop of `Lexer::tokenize`; `fuel` bounds the number of
iterations (each iteration advances the position by at least one, so any
fuel of at least `source.length + 1` is enough). -/
def tokenizeAux : Nat → LexState → List Token → List Token × LexState
  | 0, s, acc => (acc, s)
  | fuel + 1, s, acc =>
    if s.position < s.source.length then
      let s1 := skipWhitespace s
      if s1.position ≥ s1.source.length then (acc, s1)
      else
        let (tok, s2) := getNextToken s1
        tokenizeAux fuel s2 (if tok.type ≠ .UNKNOWN then acc ++ [tok] else acc)
    else (acc, s)

/-- `Lexer::tokenize` (with the constructor initialisation of the state). -/
def tokenize (input : String) : List Token × LexState :=
  let s0 : LexState := ⟨input.toList, 0, 1, 1, false⟩
  let (toks, s) := tokenizeAux (input.toList.length + 1) s0 []
  (toks ++ [⟨.END_OF_FILE, "", s.line, s.column⟩], s)

/-!
The AST of parser.h.  The C++ node classes are one inductive family here;
children that can be `nullptr` in the sources are `Option AST`.
-/

/-- The AST node hierarchy of parser.h (constructor names follow the C++
struct names). -/
inductive AST where
  | lit (value : String) (litType : TokenType) (line column : Nat)
  | ident (name : String) (line column : Nat)
  | unaryOp (op : String) (operand : AST) (line column : Nat)
  | binaryOp (op : String) (left right : AST) (line column : Nat)
  | callExpr (callee : AST) (args : List AST) (line column : Nat)
  | memberAccess (object : AST) (member : String) (arrow : Bool) (line column : Nat)
  | arraySubscript (array index : AST) (line column : Nat)
  | exprStmt (expr : Option AST) (line column : Nat)
  | varDecl (typeTokens : List String) (varName : String) (init : Option AST)
      (isPointer isReference isArray : Bool) (line column : Nat)
  | blockStmt (statements : List AST) (line column : Nat)
  | ifStmt (cond : AST) (thenBranch elseBranch : Option AST) (line column : Nat)
  | whileStmt (cond : AST) (body : Option AST) (line column : Nat)
  | forStmt (init cond post body : Option AST) (line column : Nat)
  | returnStmt (expr : Option AST) (line column : Nat)
  | classDecl (className : String) (members : List AST) (baseClasses : List String)
      (line column : Nat)
  | structDecl (structName : String) (members : List AST) (line column : Nat)
  | namespaceDecl (name : String) (body : AST) (line column : Nat)
  | templateDecl (params : List String) (declaration : Option AST) (line column : Nat)
  | accessSpec (access : String) (line column : Nat)
  | includeDirective (file : String) (isSystem : Bool) (line column : Nat)
  | usingDirective (namespaceName : String) (line column : Nat)
  | funcDecl (returnTypeTokens : List String) (funcName : String)
      (params : List (List String × String)) (body : Option AST) (isConst : Bool)
      (line column : Nat)
deriving Repr

/-- A `Program` (parser.h): the ordered list of top-level nodes. -/
abbrev Program := List AST

/-- Placeholder token returned by out-of-range accesses; its kind is
`END_OF_FILE`, matching the sentinel that terminates every token list. -/
def eofTok : Token := ⟨.END_OF_FILE, "", 0, 0⟩

/-- `tokens[i]`, total. -/
def tokAt (tokens : List Token) (i : Nat) : Token := tokens.getD i eofTok

/-- The mutable fields of the `Parser` class. -/
structure PState where
  tokens : List Token
  idx : Nat
  currentClassName : String
deriving Repr

/-- `Parser::peek`. -/
def PState.peek (st : PState) : Token := tokAt st.tokens st.idx

/-- `Parser::isAtEnd`. -/
def PState.isAtEnd (st : PState) : Bool := st.peek.type = .END_OF_FILE

/-- `Parser::check`. -/
def PState.check (st : PState) (t : TokenType) : Bool :=
  if st.isAtEnd then false else st.peek.type = t

/-- `Parser::check` on the token kind together with its spelled value
(the frequent C++ idiom `check(k) && peek().value == v`). -/
def PState.checkV (st : PState) (t : TokenType) (v : String) : Bool :=
  st.check t ∧ st.peek.value = v

/-- The comment-skipping loop inside `Parser::advance` (fuel as in
`skipWhitespaceAux`: a `COMMENT` at the index means the index is in range,
so every iteration advances it). -/
def skipCommentTokensAux : Nat → PState → PState
  | 0, st => st
  | fuel + 1, st =>
    if ¬ st.isAtEnd ∧ st.peek.type = .COMMENT then
      skipCommentTokensAux fuel { st with idx := st.idx + 1 }
    else st

/-- The comment-skipping loop inside `Parser::advance`. -/
def skipCommentTokensP (st : PState) : PState :=
  skipCommentTokensAux (st.tokens.length - st.idx + 1) st

/-- The parser monad: the `Parser` object state plus the exception thrown
by `Parser::error`. -/
abbrev PM (α : Type) := StateT PState (Except String) α

/-- `Parser::error` (the thrown message; the stderr context dump is
I/O only).  Quotes inside the C++ message texts are omitted. -/
def pError {α : Type} (msg : String) : PM α := do
  let tok := (← get).peek
  throw ("Parse error at line " ++ toString tok.line ++ " col " ++ toString tok.column
    ++ ": " ++ msg)

/-- `Parser::advance` (result value unused at every call site). -/
def pAdvance : PM Unit := do
  let st ← get
  let st := if st.isAtEnd then st else { st with idx := st.idx + 1 }
  set (skipCommentTokensP st)

/-- `Parser::match`. -/
def pMatch : List TokenType → PM Bool
  | [] => return false
  | t :: ts => do
    if (← get).check t then
      pAdvance
      return true
    else pMatch ts

/-- `Parser::consume`. -/
def pConsume (t : TokenType) (msg : String) : PM Unit := do
  if (← get).check t then pAdvance
  else pError msg

/-- First position of `pat` inside `hay` (`std::string::find`). -/
def findSubPos : List Char → List Char → Option Nat
  | hay, pat =>
    if List.isPrefixOf pat hay then some 0
    else
      match hay with
      | [] => none
      | _ :: rest => (findSubPos rest pat).map (· + 1)

/-- `std::string::find_first_not_of`. -/
def findFirstNotOf : List Char → List Char → Option Nat
  | [], _ => none
  | c :: rest, cs =>
    if c ∈ cs then (findFirstNotOf rest cs).map (· + 1) else some 0

/-- `std::string::find` for a single character. -/
def findChar : List Char → Char → Option Nat
  | [], _ => none
  | c :: rest, t => if c = t then some 0 else (findChar rest t).map (· + 1)

/-- The filename extraction of `Parser::parseIncludeDirective` from the raw
preprocessor text. -/
def extractInclude (directive : List Char) : String × Bool :=
  match findSubPos directive "include".toList with
  | none => ("", false)
  | some includePos =>
    let rest := directive.drop (includePos + 7)
    match findFirstNotOf rest [' ', '\t'] with
    | none => ("", false)
    | some start =>
      let rest := rest.drop start
      match rest with
      | [] => ("", false)
      | c0 :: _ =>
        if c0 = '<' then
          match findChar rest '>' with
          | some e => (String.mk ((rest.drop 1).take (e - 1)), true)
          | none => ("", true)
        else if c0 = '"' then
          match findChar (rest.drop 1) '"' with
          | some e0 => (String.mk ((rest.drop 1).take e0), false)
          | none => ("", false)
        else ("", false)

/-- The comment skip in the `Parser` constructor (fuel as in
`skipWhitespaceAux`). -/
def ctorSkipCommentsAux : Nat → List Token → Nat → Nat
  | 0, _, idx => idx
  | fuel + 1, tokens, idx =>
    if idx < tokens.length ∧ (tokAt tokens idx).type = .COMMENT then
      ctorSkipCommentsAux fuel tokens (idx + 1)
    else idx

/-- The comment skip in the `Parser` constructor. -/
def ctorSkipComments (tokens : List Token) (idx : Nat) : Nat :=
  ctorSkipCommentsAux (tokens.length - idx + 1) tokens idx

/-!
`Parser::parseTypeForLookahead` is a pure function of the token list and a
position; its loops are rendered with a fuel argument (the C++ loops
terminate because every iteration advances the position).
-/

/-- The qualified-name loop of `parseTypeForLookahead`. -/
def ptlScopeLoop : Nat → List Token → Nat → String → String × Nat
  | 0, _, pos, acc => (acc, pos)
  | fuel + 1, toks, pos, acc =>
    if pos < toks.length ∧ (tokAt toks pos).type = .SCOPE_RESOLUTION then
      let pos1 := pos + 1
      if pos1 < toks.length ∧ (tokAt toks pos1).type = .IDENTIFIER then
        ptlScopeLoop fuel toks (pos1 + 1) (acc ++ "::" ++ (tokAt toks pos1).value)
      else (acc, pos1)
    else (acc, pos)

/-- The template-argument loop of `parseTypeForLookahead`. -/
def ptlTemplLoop : Nat → List Token → Nat → Int → String → String × Nat
  | 0, _, pos, _, acc => (acc, pos)
  | fuel + 1, toks, pos, depth, acc =>
    if pos < toks.length ∧ depth > 0 then
      if (tokAt toks pos).type = .LESS then
        ptlTemplLoop fuel toks (pos + 1) (depth + 1) (acc ++ "<")
      else if (tokAt toks pos).type = .GREATER then
        if depth - 1 = 0 then (acc ++ ">", pos + 1)
        else ptlTemplLoop fuel toks (pos + 1) (depth - 1) (acc ++ ">")
      else ptlTemplLoop fuel toks (pos + 1) depth (acc ++ (tokAt toks pos).value)
    else (acc, pos)

/-- The base-type loop of `parseTypeForLookahead`. -/
def ptlBaseLoop : Nat → List Token → Nat → List String → List String × Nat
  | 0, _, pos, acc => (acc, pos)
  | fuel + 1, toks, pos, acc =>
    if pos < toks.length ∧
        ((tokAt toks pos).type = .TYPE_SPECIFIER ∨ (tokAt toks pos).type = .IDENTIFIER ∨
          ((tokAt toks pos).type = .KEYWORD ∧
            ((tokAt toks pos).value = "typename" ∨ (tokAt toks pos).value = "class"))) then
      let fullname := (tokAt toks pos).value
      let pos := pos + 1
      let (fullname, pos) := ptlScopeLoop fuel toks pos fullname
      let (fullname, pos) :=
        if pos < toks.length ∧ (tokAt toks pos).type = .LESS then
          ptlTemplLoop fuel toks (pos + 1) 1 (fullname ++ "<")
        else (fullname, pos)
      let acc := acc ++ [fullname]
      if pos < toks.length ∧ (tokAt toks pos).type = .TYPE_SPECIFIER ∧
          ((tokAt toks pos).value = "long" ∨ (tokAt toks pos).value = "short" ∨
            (tokAt toks pos).value = "signed" ∨ (tokAt toks pos).value = "unsigned") then
        ptlBaseLoop fuel toks pos acc
      else (acc, pos)
    else (acc, pos)

/-- The storage-class loop of `parseTypeForLookahead` (also used for the
qualifier loop and the pointer loop with the matching predicate). -/
def ptlCollectLoop (pred : Token → Bool) : Nat → List Token → Nat → List String →
    List String × Nat
  | 0, _, pos, acc => (acc, pos)
  | fuel + 1, toks, pos, acc =>
    if pos < toks.length ∧ pred (tokAt toks pos) then
      ptlCollectLoop pred fuel toks (pos + 1) (acc ++ [(tokAt toks pos).value])
    else (acc, pos)

/-- `Parser::parseTypeForLookahead`. -/
def parseTypeForLookahead (fuel : Nat) (toks : List Token) (pos : Nat) :
    List String × Nat :=
  let (acc, pos) := ptlCollectLoop (fun t => t.type = .STORAGE_CLASS) fuel toks pos []
  let (acc, pos) := ptlCollectLoop (fun t => t.type = .TYPE_QUALIFIER) fuel toks pos acc
  let (acc, pos) := ptlBaseLoop fuel toks pos acc
  ptlCollectLoop
    (fun t => t.type = .OPERATOR ∧ (t.value = "*" ∨ t.value = "&")) fuel toks pos acc

/-- The forward scan for `IDENTIFIER` + `(` in `Parser::parseTemplate`. -/
def templScanLoop : Nat → List Token → Nat → Bool
  | 0, _, _ => false
  | fuel + 1, toks, k =>
    if k + 1 < toks.length then
      if (tokAt toks k).type = .IDENTIFIER ∧ (tokAt toks (k + 1)).type = .LEFT_PAREN then true
      else if (tokAt toks k).type = .LEFT_BRACE ∨ (tokAt toks k).type = .SEMICOLON then false
      else templScanLoop fuel toks (k + 1)
    else false

/-- `Parser::parseAccessSpecifier`. -/
def parseAccessSpecifier : PM (Option AST) := do
  let accessTok := (← get).peek
  pAdvance
  pConsume .COLON "Expected colon after access specifier"
  return some (.accessSpec accessTok.value accessTok.line accessTok.column)

/-- `Parser::parseIncludeDirective`. -/
def parseIncludeDirective : PM (Option AST) := do
  let includeTok := (← get).peek
  pAdvance
  let (file, isSystem) := extractInclude includeTok.value.toList
  return some (.includeDirective file isSystem includeTok.line includeTok.column)

/-- The comment skip at the head of `Parser::parseDeclarationOrStatement`. -/
def skipCommentsLoop : Nat → PM Unit
  | 0 => throw "out of fuel"
  | fuel + 1 => do
    if (← get).check .COMMENT then do
      pAdvance
      skipCommentsLoop fuel
    else pure ()

/-- The storage-class loop of `Parser::parseType`. -/
def parseTypeSCLoop : Nat → List String → PM (List String)
  | 0, _ => throw "out of fuel"
  | fuel + 1, acc => do
    let st ← get
    if st.check .STORAGE_CLASS then do
      pAdvance
      parseTypeSCLoop fuel (acc ++ [st.peek.value])
    else pure acc

/-- The type-qualifier loop of `Parser::parseType` (also the post-pointer
qualifier loop). -/
def parseTypeTQLoop : Nat → List String → PM (List String)
  | 0, _ => throw "out of fuel"
  | fuel + 1, acc => do
    let st ← get
    if st.check .TYPE_QUALIFIER then do
      pAdvance
      parseTypeTQLoop fuel (acc ++ [st.peek.value])
    else pure acc

/-- The template-argument collection loop inside `Parser::parseType`. -/
def parseTypeTemplArgs : Nat → Int → String → PM String
  | 0, _, _ => throw "out of fuel"
  | fuel + 1, depth, acc => do
    let st ← get
    if ¬ st.isAtEnd ∧ depth > 0 then
      if st.check .LESS then do
        pAdvance
        parseTypeTemplArgs fuel (depth + 1) (acc ++ "<")
      else if st.check .GREATER then do
        pAdvance
        if depth - 1 = 0 then pure (acc ++ ">")
        else parseTypeTemplArgs fuel (depth - 1) (acc ++ ">")
      else do
        pAdvance
        parseTypeTemplArgs fuel depth (acc ++ st.peek.value)
    else pure acc

/-- The qualified-name / template loop inside `Parser::parseType`. -/
def parseTypeNameLoop : Nat → String → PM String
  | 0, _ => throw "out of fuel"
  | fuel + 1, fullname => do
    let st ← get
    if st.check .SCOPE_RESOLUTION then do
      pAdvance
      let st1 ← get
      if st1.check .IDENTIFIER then do
        pAdvance
        parseTypeNameLoop fuel (fullname ++ "::" ++ st1.peek.value)
      else pure fullname
    else if st.check .LESS then do
      pAdvance
      let f ← parseTypeTemplArgs fuel 1 (fullname ++ "<")
      parseTypeNameLoop fuel f
    else pure fullname

/-- The pointer/reference marker loop of `Parser::parseType`. -/
def parseTypePtrLoop : Nat → List String → PM (List String)
  | 0, _ => throw "out of fuel"
  | fuel + 1, acc => do
    let st ← get
    if st.check .OPERATOR ∧ (st.peek.value = "*" ∨ st.peek.value = "&") then do
      pAdvance
      let acc ← parseTypeTQLoop fuel (acc ++ [st.peek.value])
      parseTypePtrLoop fuel acc
    else pure acc

/-- `Parser::parseType`. -/
def parseType (fuel : Nat) : PM (List String) := do
  let tt ← parseTypeSCLoop fuel []
  let tt ← parseTypeTQLoop fuel tt
  let st ← get
  if st.check .TYPE_SPECIFIER then do
    pAdvance
    parseTypePtrLoop fuel (tt ++ [st.peek.value])
  else if st.check .IDENTIFIER ∨
      (st.check .KEYWORD ∧ (st.peek.value = "typename" ∨ st.peek.value = "class")) then do
    let fullname := st.peek.value
    pAdvance
    let fullname ←
      if fullname = "typename" ∨ fullname = "class" then do
        let st2 ← get
        if st2.check .IDENTIFIER then do
          pAdvance
          pure (fullname ++ " " ++ st2.peek.value)
        else pure fullname
      else pure fullname
    let fullname ← parseTypeNameLoop fuel fullname
    parseTypePtrLoop fuel (tt ++ [fullname])
  else
    parseTypePtrLoop fuel tt

/-- The parameter loop of `Parser::parseFunctionParams`. -/
def funcParamsLoop : Nat → List (List String × String) → PM (List (List String × String))
  | 0, _ => throw "out of fuel"
  | fuel + 1, acc => do
    let st ← get
    if ¬ st.check .RIGHT_PAREN ∧ ¬ st.isAtEnd then do
      let paramType ← parseType fuel
      if paramType = [] then pError "Expected type in parameter list"
      else do
        let st1 ← get
        let paramName ←
          if st1.check .IDENTIFIER then do
            pAdvance
            pure st1.peek.value
          else pure ""
        let acc := acc ++ [(paramType, paramName)]
        let m ← pMatch [.COMMA]
        if m then funcParamsLoop fuel acc else pure acc
    else pure acc

/-- `Parser::parseFunctionParams`. -/
def parseFunctionParams (fuel : Nat) : PM (List (List String × String)) := do
  pConsume .LEFT_PAREN "Expected paren after function name"
  let ps ← funcParamsLoop fuel []
  pConsume .RIGHT_PAREN "Expected paren after parameters"
  pure ps

/-- `Parser::parseTemplateParams`. -/
def parseTemplateParams : Nat → List String → PM (List String)
  | 0, _ => throw "out of fuel"
  | fuel + 1, acc => do
    let st ← get
    if ¬ st.check .GREATER ∧ ¬ st.isAtEnd then do
      let acc ←
        if st.checkV .KEYWORD "typename" ∨ st.checkV .KEYWORD "class" then do
          pAdvance
          let st1 ← get
          if st1.check .IDENTIFIER then do
            pAdvance
            let st2 ← get
            if st2.checkV .OPERATOR "=" then do
              pAdvance
              let st3 ← get
              if st3.check .IDENTIFIER ∨ st3.check .TYPE_SPECIFIER then pAdvance
            pure (acc ++ [st1.peek.value])
          else pure acc
        else pure acc
      let st4 ← get
      if st4.check .COMMA then do
        pAdvance
        parseTemplateParams fuel acc
      else pure acc
    else pure acc

/-- The token skip of the `using X::Y;` branch of
`Parser::parseUsingDirective`. -/
def usingSkipLoop : Nat → PM Unit
  | 0 => throw "out of fuel"
  | fuel + 1 => do
    let st ← get
    if ¬ st.check .SEMICOLON ∧ ¬ st.isAtEnd then do
      pAdvance
      usingSkipLoop fuel
    else pure ()

/-- `Parser::parseUsingDirective`. -/
def parseUsingDirective (fuel : Nat) : PM (Option AST) := do
  let usingTok := (← get).peek
  pAdvance
  let st ← get
  if st.checkV .KEYWORD "namespace" then do
    pAdvance
    let st1 ← get
    if ¬ st1.check .IDENTIFIER then pError "Expected namespace name"
    else do
      pAdvance
      pConsume .SEMICOLON "Expected semicolon after using directive"
      return some (.usingDirective st1.peek.value usingTok.line usingTok.column)
  else do
    usingSkipLoop fuel
    pConsume .SEMICOLON "Expected semicolon after using declaration"
    return none

/-- The qualified-name loop of `Parser::parseNamespace`. -/
def nsNameLoop : Nat → String → PM String
  | 0, _ => throw "out of fuel"
  | fuel + 1, name => do
    let st ← get
    if st.check .SCOPE_RESOLUTION then do
      pAdvance
      let st1 ← get
      if st1.check .IDENTIFIER then do
        pAdvance
        nsNameLoop fuel (name ++ "::" ++ st1.peek.value)
      else pure name
    else pure name

/-- The base-class list loop of `Parser::parseClass`. -/
def classBaseLoop : Nat → List String → PM (List String)
  | 0, _ => throw "out of fuel"
  | fuel + 1, acc => do
    let st ← get
    if ¬ st.check .LEFT_BRACE ∧ ¬ st.isAtEnd then do
      -- skip access specifiers
      let st1 ← get
      if st1.check .ACCESS_SPECIFIER ∨ st1.check .KEYWORD then pAdvance
      -- get base class name
      let st2 ← get
      let acc ←
        if st2.check .IDENTIFIER then do
          pAdvance
          pure (acc ++ [st2.peek.value])
        else pure acc
      -- skip comma
      let st3 ← get
      if st3.check .COMMA then do
        pAdvance
        classBaseLoop fuel acc
      else pure acc
    else pure acc

/-- The raw-token collection of a brace initializer in
`Parser::parseVarDeclaration`. -/
def braceContentsLoop : Nat → String → PM String
  | 0, _ => throw "out of fuel"
  | fuel + 1, contents => do
    let st ← get
    if ¬ st.check .RIGHT_BRACE ∧ ¬ st.isAtEnd then do
      pAdvance
      braceContentsLoop fuel (contents ++ st.peek.value)
    else pure contents

/-- The skip to the lambda body in the lambda branches of
`Parser::parseCallAndPrimary`. -/
def lambdaSkipToBrace : Nat → PM Unit
  | 0 => throw "out of fuel"
  | fuel + 1 => do
    let st ← get
    if ¬ st.check .LEFT_BRACE ∧ ¬ st.isAtEnd then do
      pAdvance
      lambdaSkipToBrace fuel
    else pure ()

/-- The balanced-brace skip of the lambda branch of
`Parser::parseCallAndPrimary`. -/
def lambdaDepthSkip : Nat → Int → PM Unit
  | 0, _ => throw "out of fuel"
  | fuel + 1, depth => do
    let st ← get
    if ¬ st.isAtEnd ∧ depth > 0 then
      if st.check .LEFT_BRACE then do
        pAdvance
        lambdaDepthSkip fuel (depth + 1)
      else if st.check .RIGHT_BRACE then do
        pAdvance
        if depth - 1 = 0 then pure () else lambdaDepthSkip fuel (depth - 1)
      else do
        pAdvance
        lambdaDepthSkip fuel depth
    else pure ()

mutual

/-- The top-level loop of `Parser::parseProgram`. -/
def parseProgramLoop : Nat → List AST → PM (List AST)
  | 0, _ => throw "out of fuel"
  | fuel + 1, acc => do
    let st ← get
    if ¬ st.isAtEnd then
      if st.check .END_OF_FILE then pure acc
      else if st.check .COMMENT then do
        pAdvance
        parseProgramLoop fuel acc
      else do
        let node ← parseDeclarationOrStatement fuel
        match node with
        | some n => parseProgramLoop fuel (acc ++ [n])
        | none => parseProgramLoop fuel acc
    else pure acc

/-- `Parser::parseDeclarationOrStatement`. -/
def parseDeclarationOrStatement : Nat → PM (Option AST)
  | 0 => throw "out of fuel"
  | fuel + 1 => do
    skipCommentsLoop fuel
    let st ← get
    let t := st.peek
    if t.type = .PREPROCESSOR then parseIncludeDirective
    else if t.type = .ACCESS_SPECIFIER then parseAccessSpecifier
    else if t.type = .KEYWORD ∧ (t.value = "return" ∨ t.value = "if" ∨ t.value = "while" ∨
        t.value = "for" ∨ t.value = "break" ∨ t.value = "continue" ∨ t.value = "throw" ∨
        t.value = "delete" ∨ t.value = "new") then
      parseStatement fuel
    else if t.type = .KEYWORD ∨ t.type = .TYPE_SPECIFIER ∨ t.type = .STORAGE_CLASS ∨
        t.type = .TYPE_QUALIFIER then
      if t.value = "class" then parseClass fuel
      else if t.value = "struct" then parseStruct fuel
      else if t.value = "namespace" then parseNamespace fuel
      else if t.value = "template" then parseTemplate fuel
      else if t.value = "using" then parseUsingDirective fuel
      else do
        let (_, la) := parseTypeForLookahead fuel st.tokens st.idx
        if la < st.tokens.length ∧ (tokAt st.tokens la).type = .IDENTIFIER ∧
            la + 1 < st.tokens.length ∧ (tokAt st.tokens (la + 1)).type = .LEFT_PAREN then
          parseFunctionDeclaration fuel
        else parseVarDeclaration fuel
    else if t.type = .IDENTIFIER then do
      let (tt, la) := parseTypeForLookahead fuel st.tokens st.idx
      if tt ≠ [] ∧ la < st.tokens.length ∧ (tokAt st.tokens la).type = .IDENTIFIER then
        parseVarDeclaration fuel
      else parseStatement fuel
    else parseStatement fuel

/-- `Parser::parseClass`. -/
def parseClass : Nat → PM (Option AST)
  | 0 => throw "out of fuel"
  | fuel + 1 => do
    let classTok := (← get).peek
    pAdvance
    let st ← get
    if ¬ st.check .IDENTIFIER then pError "Expected class name"
    else do
      let nameTok := (← get).peek
      pAdvance
      let oldClassName := (← get).currentClassName
      modify fun s => { s with currentClassName := nameTok.value }
      let colonMatched ← pMatch [.COLON]
      let bases ← if colonMatched then classBaseLoop fuel [] else pure []
      pConsume .LEFT_BRACE "Expected brace after class name"
      let members ← classMembersLoop fuel []
      pConsume .RIGHT_BRACE "Expected brace after class body"
      pConsume .SEMICOLON "Expected semicolon after class declaration"
      modify fun s => { s with currentClassName := oldClassName }
      return some (.classDecl nameTok.value members bases classTok.line classTok.column)

/-- The member loop of `Parser::parseClass` and `Parser::parseStruct`. -/
def classMembersLoop : Nat → List AST → PM (List AST)
  | 0, _ => throw "out of fuel"
  | fuel + 1, acc => do
    let st ← get
    if ¬ st.check .RIGHT_BRACE ∧ ¬ st.isAtEnd then do
      let m ← parseClassMember fuel
      match m with
      | some n => classMembersLoop fuel (acc ++ [n])
      | none => classMembersLoop fuel acc
    else pure acc

/-- `Parser::parseStruct`. -/
def parseStruct : Nat → PM (Option AST)
  | 0 => throw "out of fuel"
  | fuel + 1 => do
    let structTok := (← get).peek
    pAdvance
    let st ← get
    if ¬ st.check .IDENTIFIER then pError "Expected struct name"
    else do
      let nameTok := (← get).peek
      pAdvance
      pConsume .LEFT_BRACE "Expected brace after struct name"
      let members ← classMembersLoop fuel []
      pConsume .RIGHT_BRACE "Expected brace after struct body"
      pConsume .SEMICOLON "Expected semicolon after struct declaration"
      return some (.structDecl nameTok.value members structTok.line structTok.column)

/-- `Parser::parseNamespace`. -/
def parseNamespace : Nat → PM (Option AST)
  | 0 => throw "out of fuel"
  | fuel + 1 => do
    let nsTok := (← get).peek
    pAdvance
    let st ← get
    let name ←
      if st.check .IDENTIFIER then do
        pAdvance
        nsNameLoop fuel st.peek.value
      else pure ""
    pConsume .LEFT_BRACE "Expected brace after namespace"
    let stmts ← nsBodyLoop fuel []
    pConsume .RIGHT_BRACE "Expected brace after namespace body"
    return some (.namespaceDecl name (.blockStmt stmts nsTok.line nsTok.column)
      nsTok.line nsTok.column)

/-- The declaration loop of `Parser::parseNamespace`. -/
def nsBodyLoop : Nat → List AST → PM (List AST)
  | 0, _ => throw "out of fuel"
  | fuel + 1, acc => do
    let st ← get
    if ¬ st.check .RIGHT_BRACE ∧ ¬ st.isAtEnd then do
      let d ← parseDeclarationOrStatement fuel
      match d with
      | some n => nsBodyLoop fuel (acc ++ [n])
      | none => nsBodyLoop fuel acc
    else pure acc

/-- `Parser::parseTemplate`. -/
def parseTemplate : Nat → PM (Option AST)
  | 0 => throw "out of fuel"
  | fuel + 1 => do
    let templateTok := (← get).peek
    pAdvance
    pConsume .LESS "Expected LESS after template"
    let params ← parseTemplateParams fuel []
    pConsume .GREATER "Expected GREATER after template parameters"
    let st ← get
    let (_, la) := parseTypeForLookahead fuel st.tokens st.idx
    if la < st.tokens.length ∧ (tokAt st.tokens la).type = .IDENTIFIER ∧
        la + 1 < st.tokens.length ∧ (tokAt st.tokens (la + 1)).type = .LEFT_PAREN then do
      let d ← parseFunctionDeclaration fuel
      return some (.templateDecl params d templateTok.line templateTok.column)
    else if templScanLoop fuel st.tokens st.idx then do
      let d ← parseFunctionDeclaration fuel
      return some (.templateDecl params d templateTok.line templateTok.column)
    else do
      let d ← parseDeclarationOrStatement fuel
      return some (.templateDecl params d templateTok.line templateTok.column)

/-- `Parser::parseFunctionDeclaration`. -/
def parseFunctionDeclaration : Nat → PM (Option AST)
  | 0 => throw "out of fuel"
  | fuel + 1 => do
    let st0 ← get
    let startLine := st0.peek.line
    let startCol := st0.peek.column
    let (returnType, funcName) ←
      if st0.check .IDENTIFIER ∧ st0.peek.value = st0.currentClassName then do
        pAdvance
        pure (([] : List String), st0.peek.value)
      else if st0.checkV .OPERATOR "~" then do
        pAdvance
        let st1 ← get
        if ¬ st1.check .IDENTIFIER ∨ st1.peek.value ≠ st1.currentClassName then
          pError "Expected class name after tilde"
        else do
          pAdvance
          pure ([], "~" ++ st1.peek.value)
      else do
        let rt ← parseType fuel
        let st1 ← get
        if st1.check .LEFT_PAREN ∧ rt ≠ [] then
          -- assume the last token in returnType is the function name
          pure (rt.dropLast, rt.getLastD "")
        else
          if ¬ st1.check .IDENTIFIER then pError "Expected function name"
          else do
            pAdvance
            pure (rt, st1.peek.value)
    let params ← parseFunctionParams fuel
    let st2 ← get
    let isConst ←
      if st2.check .TYPE_QUALIFIER ∧ st2.peek.value = "const" then do
        pAdvance
        pure true
      else pure false
    let st3 ← get
    let body ←
      if st3.check .LEFT_BRACE then parseBlock fuel
      else do
        pConsume .SEMICOLON "Expected semicolon or function body"
        pure none
    return some (.funcDecl returnType funcName params body isConst startLine startCol)

/-- `Parser::parseClassMember`. -/
def parseClassMember : Nat → PM (Option AST)
  | 0 => throw "out of fuel"
  | fuel + 1 => do
    let st ← get
    if st.check .ACCESS_SPECIFIER then parseAccessSpecifier
    else if st.check .IDENTIFIER ∧ st.peek.value = st.currentClassName ∧
        st.idx + 1 < st.tokens.length ∧ (tokAt st.tokens (st.idx + 1)).type = .LEFT_PAREN then
      parseFunctionDeclaration fuel
    else if st.checkV .OPERATOR "~" ∧ st.idx + 1 < st.tokens.length ∧
        (tokAt st.tokens (st.idx + 1)).type = .IDENTIFIER ∧
        (tokAt st.tokens (st.idx + 1)).value = st.currentClassName then
      parseFunctionDeclaration fuel
    else parseDeclarationOrStatement fuel

/-- `Parser::parseVarDeclaration`. -/
def parseVarDeclaration : Nat → PM (Option AST)
  | 0 => throw "out of fuel"
  | fuel + 1 => do
    let st0 ← get
    let startLine := st0.peek.line
    let startCol := st0.peek.column
    let type ← parseType fuel
    let st1 ← get
    if ¬ st1.check .IDENTIFIER then pError "Expected identifier after type"
    else do
      let decls ← varDeclLoop fuel type startLine startCol []
      let st2 ← get
      if st2.check .SEMICOLON then
        pConsume .SEMICOLON "Expected semicolon after variable declaration"
      match decls with
      | [d] => return some d
      | _ => return some (.blockStmt decls startLine startCol)

/-- The declarator loop of `Parser::parseVarDeclaration`. -/
def varDeclLoop : Nat → List String → Nat → Nat → List AST → PM (List AST)
  | 0, _, _, _, _ => throw "out of fuel"
  | fuel + 1, type, startLine, startCol, acc => do
    let nameTok := (← get).peek
    pAdvance
    let st ← get
    let (init, isArrayDecl) ←
      if st.check .LEFT_BRACKET then do
        pAdvance
        let _ ← parseExpression fuel
        pConsume .RIGHT_BRACKET "Expected bracket in array declarator"
        let st1 ← get
        if st1.checkV .OPERATOR "=" then do
          pAdvance
          let st2 ← get
          if st2.check .LEFT_BRACE then do
            let ob := st2.peek
            pAdvance
            let contents ← braceContentsLoop fuel ""
            pConsume .RIGHT_BRACE "Expected brace after initializer list"
            pure (some (AST.lit contents .LEFT_BRACE ob.line ob.column), true)
          else do
            let e ← parseExpression fuel
            pure (some e, true)
        else pure ((none : Option AST), true)
      else if st.checkV .OPERATOR "=" then do
        pAdvance
        let st2 ← get
        if st2.check .LEFT_BRACE then do
          let ob := st2.peek
          pAdvance
          let contents ← braceContentsLoop fuel ""
          pConsume .RIGHT_BRACE "Expected brace after initializer list"
          pure (some (AST.lit contents .LEFT_BRACE ob.line ob.column), false)
        else do
          let e ← parseExpression fuel
          pure (some e, false)
      else if st.check .LEFT_PAREN then do
        pAdvance
        let args ← ctorArgsLoop fuel []
        pConsume .RIGHT_PAREN "Expected paren after constructor arguments"
        let typeName := AST.ident (type.headD "") startLine startCol
        pure (some (AST.callExpr typeName args startLine startCol), false)
      else pure (none, false)
    let vd := AST.varDecl type nameTok.value init
        (type.contains "*") (type.contains "&") isArrayDecl startLine startCol
    let acc := acc ++ [vd]
    let m ← pMatch [.COMMA]
    if m then varDeclLoop fuel type startLine startCol acc else pure acc

/-- The constructor-call argument loop of `Parser::parseVarDeclaration`. -/
def ctorArgsLoop : Nat → List AST → PM (List AST)
  | 0, _ => throw "out of fuel"
  | fuel + 1, acc => do
    let st ← get
    if ¬ st.check .RIGHT_PAREN ∧ ¬ st.isAtEnd then do
      let e ← parseExpression fuel
      let m ← pMatch [.COMMA]
      if m then ctorArgsLoop fuel (acc ++ [e]) else pure (acc ++ [e])
    else pure acc

/-- `Parser::parseStatement`. -/
def parseStatement : Nat → PM (Option AST)
  | 0 => throw "out of fuel"
  | fuel + 1 => do
    let st ← get
    let t := st.peek
    if t.type = .PREPROCESSOR then do
      pAdvance
      return none
    else if st.checkV .KEYWORD "using" then parseDeclarationOrStatement fuel
    else do
      let m ← pMatch [.LEFT_BRACE]
      if m then do
        modify fun s => { s with idx := s.idx - 1 }
        parseBlock fuel
      else do
        let st1 ← get
        if st1.checkV .KEYWORD "if" then parseIf fuel
        else if st1.checkV .KEYWORD "while" then parseWhile fuel
        else if st1.checkV .KEYWORD "for" then parseFor fuel
        else if st1.checkV .KEYWORD "return" then parseReturn fuel
        else if st1.checkV .KEYWORD "throw" then parseThrow fuel
        else parseExpressionStatement fuel

/-- `Parser::parseBlock`. -/
def parseBlock : Nat → PM (Option AST)
  | 0 => throw "out of fuel"
  | fuel + 1 => do
    let openTok := (← get).peek
    pConsume .LEFT_BRACE "Expected brace to start block"
    let stmts ← blockLoop fuel []
    pConsume .RIGHT_BRACE "Expected brace after block"
    return some (.blockStmt stmts openTok.line openTok.column)

/-- The statement loop of `Parser::parseBlock`. -/
def blockLoop : Nat → List AST → PM (List AST)
  | 0, _ => throw "out of fuel"
  | fuel + 1, acc => do
    let st ← get
    if ¬ st.check .RIGHT_BRACE ∧ ¬ st.isAtEnd then do
      let s ← parseDeclarationOrStatement fuel
      match s with
      | some n => blockLoop fuel (acc ++ [n])
      | none => blockLoop fuel acc
    else pure acc

/-- `Parser::parseExpressionStatement`. -/
def parseExpressionStatement : Nat → PM (Option AST)
  | 0 => throw "out of fuel"
  | fuel + 1 => do
    let e ← parseExpression fuel
    pConsume .SEMICOLON "Expected semicolon after expression"
    let st ← get
    return some (.exprStmt (some e) st.peek.line st.peek.column)

/-- `Parser::parseFor`. -/
def parseFor : Nat → PM (Option AST)
  | 0 => throw "out of fuel"
  | fuel + 1 => do
    let tk := (← get).peek
    pAdvance
    pConsume .LEFT_PAREN "Expected paren after for"
    let st ← get
    let init ←
      if ¬ st.check .SEMICOLON then
        if st.check .TYPE_SPECIFIER ∨ st.check .TYPE_QUALIFIER ∨ st.check .STORAGE_CLASS then
          parseVarDeclaration fuel
        else do
          let e ← parseExpression fuel
          pConsume .SEMICOLON "Expected semicolon after for init"
          pure (some e)
      else do
        pConsume .SEMICOLON "Expected semicolon after empty for init"
        pure none
    let st1 ← get
    if st1.check .COLON then do
      pAdvance
      let rangeExpr ← parseExpression fuel
      pConsume .RIGHT_PAREN "Expected paren after for range"
      let body ← parseStatement fuel
      return some (.forStmt init none (some rangeExpr) body tk.line tk.column)
    else do
      let st2 ← get
      let cond ← if ¬ st2.check .SEMICOLON then some <$> parseExpression fuel else pure none
      pConsume .SEMICOLON "Expected semicolon after for condition"
      let st3 ← get
      let post ← if ¬ st3.check .RIGHT_PAREN then some <$> parseExpression fuel else pure none
      pConsume .RIGHT_PAREN "Expected paren after for clauses"
      let body ← parseStatement fuel
      return some (.forStmt init cond post body tk.line tk.column)

/-- `Parser::parseIf`. -/
def parseIf : Nat → PM (Option AST)
  | 0 => throw "out of fuel"
  | fuel + 1 => do
    let tk := (← get).peek
    pAdvance
    pConsume .LEFT_PAREN "Expected paren after if"
    let cond ← parseExpression fuel
    pConsume .RIGHT_PAREN "Expected paren after if condition"
    let thenBranch ← parseStatement fuel
    let st ← get
    let elseBranch ←
      if st.checkV .KEYWORD "else" then do
        pAdvance
        parseStatement fuel
      else pure none
    return some (.ifStmt cond thenBranch elseBranch tk.line tk.column)

/-- `Parser::parseWhile`. -/
def parseWhile : Nat → PM (Option AST)
  | 0 => throw "out of fuel"
  | fuel + 1 => do
    let tk := (← get).peek
    pAdvance
    pConsume .LEFT_PAREN "Expected paren after while"
    let cond ← parseExpression fuel
    pConsume .RIGHT_PAREN "Expected paren after while condition"
    let body ← parseStatement fuel
    return some (.whileStmt cond body tk.line tk.column)

/-- `Parser::parseReturn`. -/
def parseReturn : Nat → PM (Option AST)
  | 0 => throw "out of fuel"
  | fuel + 1 => do
    let tk := (← get).peek
    pAdvance
    let st ← get
    let e ← if ¬ st.check .SEMICOLON then some <$> parseExpression fuel else pure none
    pConsume .SEMICOLON "Expected semicolon after return"
    return some (.returnStmt e tk.line tk.column)

/-- `Parser::parseThrow` (lowered to an expression statement). -/
def parseThrow : Nat → PM (Option AST)
  | 0 => throw "out of fuel"
  | fuel + 1 => do
    let tk := (← get).peek
    pAdvance
    let st ← get
    let e ← if ¬ st.check .SEMICOLON then some <$> parseExpression fuel else pure none
    pConsume .SEMICOLON "Expected semicolon after throw"
    return some (.exprStmt e tk.line tk.column)

/-- `Parser::parseExpression`. -/
def parseExpression : Nat → PM AST
  | 0 => throw "out of fuel"
  | fuel + 1 => parseAssignment fuel

/-- `Parser::parseAssignment`. -/
def parseAssignment : Nat → PM AST
  | 0 => throw "out of fuel"
  | fuel + 1 => do
    let left ← parseConditional fuel
    let st ← get
    if st.checkV .OPERATOR "=" then do
      let op := st.peek
      pAdvance
      let right ← parseAssignment fuel
      return .binaryOp op.value left right op.line op.column
    else return left

/-- `Parser::parseConditional`. -/
def parseConditional : Nat → PM AST
  | 0 => throw "out of fuel"
  | fuel + 1 => do
    let cond ← parseLogicalOr fuel
    let st ← get
    if st.checkV .OPERATOR "?" then do
      let q := st.peek
      pAdvance
      let thenExpr ← parseExpression fuel
      pConsume .COLON "Expected colon in conditional expression"
      let elseExpr ← parseExpression fuel
      return .binaryOp "?:" thenExpr elseExpr q.line q.column
    else return cond

/-- `Parser::parseLogicalOr`. -/
def parseLogicalOr : Nat → PM AST
  | 0 => throw "out of fuel"
  | fuel + 1 => do
    let node ← parseLogicalAnd fuel
    orLoop fuel node

/-- The iteration of `Parser::parseLogicalOr`. -/
def orLoop : Nat → AST → PM AST
  | 0, _ => throw "out of fuel"
  | fuel + 1, node => do
    let st ← get
    if st.checkV .OPERATOR "||" then do
      let op := st.peek
      pAdvance
      let right ← parseLogicalAnd fuel
      orLoop fuel (.binaryOp op.value node right op.line op.column)
    else return node

/-- `Parser::parseLogicalAnd`. -/
def parseLogicalAnd : Nat → PM AST
  | 0 => throw "out of fuel"
  | fuel + 1 => do
    let node ← parseEquality fuel
    andLoop fuel node

/-- The iteration of `Parser::parseLogicalAnd`. -/
def andLoop : Nat → AST → PM AST
  | 0, _ => throw "out of fuel"
  | fuel + 1, node => do
    let st ← get
    if st.checkV .OPERATOR "&&" then do
      let op := st.peek
      pAdvance
      let right ← parseEquality fuel
      andLoop fuel (.binaryOp op.value node right op.line op.column)
    else return node

/-- `Parser::parseEquality`. -/
def parseEquality : Nat → PM AST
  | 0 => throw "out of fuel"
  | fuel + 1 => do
    let node ← parseComparison fuel
    eqLoop fuel node

/-- The iteration of `Parser::parseEquality`. -/
def eqLoop : Nat → AST → PM AST
  | 0, _ => throw "out of fuel"
  | fuel + 1, node => do
    let st ← get
    if st.check .OPERATOR ∧ (st.peek.value = "==" ∨ st.peek.value = "!=") then do
      let op := st.peek
      pAdvance
      let right ← parseComparison fuel
      eqLoop fuel (.binaryOp op.value node right op.line op.column)
    else return node

/-- `Parser::parseComparison`. -/
def parseComparison : Nat → PM AST
  | 0 => throw "out of fuel"
  | fuel + 1 => do
    let node ← parseShift fuel
    cmpLoop fuel node

/-- The iteration of `Parser::parseComparison`. -/
def cmpLoop : Nat → AST → PM AST
  | 0, _ => throw "out of fuel"
  | fuel + 1, node => do
    let st ← get
    if st.check .LESS ∨ st.check .GREATER ∨ st.check .LESS_EQUAL ∨ st.check .GREATER_EQUAL then do
      let op := st.peek
      pAdvance
      let right ← parseShift fuel
      cmpLoop fuel (.binaryOp op.value node right op.line op.column)
    else if st.check .OPERATOR ∧ (st.peek.value = "<" ∨ st.peek.value = ">" ∨
        st.peek.value = "<=" ∨ st.peek.value = ">=") then do
      let op := st.peek
      pAdvance
      let right ← parseShift fuel
      cmpLoop fuel (.binaryOp op.value node right op.line op.column)
    else return node

/-- `Parser::parseShift`. -/
def parseShift : Nat → PM AST
  | 0 => throw "out of fuel"
  | fuel + 1 => do
    let node ← parseAdditive fuel
    shiftLoop fuel node

/-- The iteration of `Parser::parseShift`. -/
def shiftLoop : Nat → AST → PM AST
  | 0, _ => throw "out of fuel"
  | fuel + 1, node => do
    let st ← get
    if (st.check .LEFT_SHIFT ∨ st.check .RIGHT_SHIFT) ∨
        (st.check .OPERATOR ∧ (st.peek.value = "<<" ∨ st.peek.value = ">>")) then do
      let op := st.peek
      pAdvance
      let right ← parseAdditive fuel
      shiftLoop fuel (.binaryOp op.value node right op.line op.column)
    else return node

/-- `Parser::parseAdditive`. -/
def parseAdditive : Nat → PM AST
  | 0 => throw "out of fuel"
  | fuel + 1 => do
    let node ← parseMultiplicative fuel
    addLoop fuel node

/-- The iteration of `Parser::parseAdditive`. -/
def addLoop : Nat → AST → PM AST
  | 0, _ => throw "out of fuel"
  | fuel + 1, node => do
    let st ← get
    if st.check .OPERATOR ∧ (st.peek.value = "+" ∨ st.peek.value = "-") then do
      let op := st.peek
      pAdvance
      let right ← parseMultiplicative fuel
      addLoop fuel (.binaryOp op.value node right op.line op.column)
    else return node

/-- `Parser::parseMultiplicative`. -/
def parseMultiplicative : Nat → PM AST
  | 0 => throw "out of fuel"
  | fuel + 1 => do
    let node ← parseUnary fuel
    mulLoop fuel node

/-- The iteration of `Parser::parseMultiplicative`. -/
def mulLoop : Nat → AST → PM AST
  | 0, _ => throw "out of fuel"
  | fuel + 1, node => do
    let st ← get
    if st.check .OPERATOR ∧ (st.peek.value = "*" ∨ st.peek.value = "/" ∨
        st.peek.value = "%") then do
      let op := st.peek
      pAdvance
      let right ← parseUnary fuel
      mulLoop fuel (.binaryOp op.value node right op.line op.column)
    else return node

/-- `Parser::parseUnary`. -/
def parseUnary : Nat → PM AST
  | 0 => throw "out of fuel"
  | fuel + 1 => do
    let st ← get
    if st.checkV .KEYWORD "new" then do
      let op := st.peek
      pAdvance
      let st1 ← get
      if st1.check .TYPE_SPECIFIER then do
        let type_name := st1.peek.value
        pAdvance
        let st2 ← get
        if st2.check .LEFT_BRACKET then do
          pAdvance
          let size_expr ← parseExpression fuel
          let st3 ← get
          if ¬ st3.check .RIGHT_BRACKET then pError "Expected bracket after array size"
          else do
            pAdvance
            let dummy_array := AST.ident type_name op.line op.column
            return .unaryOp "new"
              (.arraySubscript dummy_array size_expr op.line op.column) op.line op.column
        else
          return .unaryOp "new" (.ident type_name op.line op.column) op.line op.column
      else do
        let operand ← parseUnary fuel
        return .unaryOp "new" operand op.line op.column
    else if st.checkV .KEYWORD "delete" then do
      let op := st.peek
      pAdvance
      let operand ← parseUnary fuel
      return .unaryOp "delete" operand op.line op.column
    else if st.check .OPERATOR ∧ (st.peek.value = "!" ∨ st.peek.value = "-" ∨
        st.peek.value = "+" ∨ st.peek.value = "*" ∨ st.peek.value = "&" ∨
        st.peek.value = "~") then do
      let op := st.peek
      pAdvance
      let operand ← parseUnary fuel
      return .unaryOp op.value operand op.line op.column
    else parseCallAndPrimary fuel

/-- `Parser::parseCallAndPrimary`. -/
def parseCallAndPrimary : Nat → PM AST
  | 0 => throw "out of fuel"
  | fuel + 1 => do
    let st ← get
    let t := st.peek
    if t.type = .LEFT_BRACKET then do
      -- lambda primary
      pAdvance
      lambdaSkipToBrace fuel
      let st1 ← get
      if st1.check .LEFT_BRACE then do
        pAdvance
        lambdaDepthSkip fuel 1
      return .lit "<lambda>" .LEFT_BRACE t.line t.column
    else if t.type = .NUMBER ∨ t.type = .STRING ∨ t.type = .CHARACTER then do
      pAdvance
      return .lit t.value t.type t.line t.column
    else if t.type = .IDENTIFIER then do
      pAdvance
      postfixLoop fuel (.ident t.value t.line t.column)
    else if st.check .LEFT_PAREN then do
      pAdvance
      let e ← parseExpression fuel
      pConsume .RIGHT_PAREN "Expected paren after expression"
      return e
    else pError "Expected expression"

/-- The postfix loop of `Parser::parseCallAndPrimary`.  The second
`LEFT_BRACKET` branch of the C++ loop (crude lambda support) is unreachable
because the first `LEFT_BRACKET` branch catches the same token, so it is
not reproduced here. -/
def postfixLoop : Nat → AST → PM AST
  | 0, _ => throw "out of fuel"
  | fuel + 1, left => do
    let st ← get
    if st.check .ARROW then do
      let op := st.peek
      pAdvance
      let st1 ← get
      if ¬ st1.check .IDENTIFIER then pError "Expected member name after arrow"
      else do
        pAdvance
        postfixLoop fuel (.memberAccess left st1.peek.value true op.line op.column)
    else if st.check .DOT then do
      let op := st.peek
      pAdvance
      let st1 ← get
      if ¬ st1.check .IDENTIFIER then pError "Expected member name after dot"
      else do
        pAdvance
        postfixLoop fuel (.memberAccess left st1.peek.value false op.line op.column)
    else if st.check .LEFT_BRACKET then do
      let bracket := st.peek
      pAdvance
      let index ← parseExpression fuel
      pConsume .RIGHT_BRACKET "Expected bracket after array index"
      postfixLoop fuel (.arraySubscript left index bracket.line bracket.column)
    else if st.check .LEFT_PAREN then do
      let openTok := st.peek
      pAdvance
      let st1 ← get
      let args ← if ¬ st1.check .RIGHT_PAREN then callArgsLoop fuel [] else pure []
      pConsume .RIGHT_PAREN "Expected paren after function call arguments"
      postfixLoop fuel (.callExpr left args openTok.line openTok.column)
    else if st.check .OPERATOR ∧ (st.peek.value = "++" ∨ st.peek.value = "--") then do
      let op := st.peek
      pAdvance
      postfixLoop fuel (.unaryOp (op.value ++ "_post") left op.line op.column)
    else if st.check .SCOPE_RESOLUTION then do
      pAdvance
      let st1 ← get
      if st1.check .IDENTIFIER then do
        pAdvance
        match left with
        | .ident n _ _ =>
          postfixLoop fuel (.ident (n ++ "::" ++ st1.peek.value) st1.peek.line st1.peek.column)
        | _ =>
          -- the C++ dereferences a failed dynamic_cast (null) here
          throw "dynamic_cast to Identifier failed"
      else postfixLoop fuel left
    else return left

/-- The do-while argument loop of the call branch of
`Parser::parseCallAndPrimary`. -/
def callArgsLoop : Nat → List AST → PM (List AST)
  | 0, _ => throw "out of fuel"
  | fuel + 1, acc => do
    let e ← parseExpression fuel
    let m ← pMatch [.COMMA]
    if m then callArgsLoop fuel (acc ++ [e]) else pure (acc ++ [e])

end

/-- `Parser::Parser` plus `Parser::parseProgram`: parse a whole token list.
The fuel bounds the recursion depth of the C++ parser (which is unbounded
there; any parse that succeeds does so for every sufficiently large fuel). -/
def parseProgram (tokens : List Token) (fuel : Nat) : Except String Program := do
  let st0 : PState := ⟨tokens, ctorSkipComments tokens 0, ""⟩
  let (prog, _) ← (parseProgramLoop fuel []).run st0
  return prog

/-!
The code generator (codegen.cpp).  The header codegen.h is not part of the
repository; the `Opcode` enumeration (stated in vm.h to match codegen.h),
the `Symbol` and `Label` records and `currentAddress` are modelled from the
spec and their uses in codegen.cpp.
-/

/-- The bytecode opcodes (vm.h `VMOpcode`; codegen.h `Opcode` matches it). -/
inductive Opcode where
  | PUSH | POP | ADD | SUB | MUL | DIV | MOD | DUP | SWAP
  | PRINT | PRINT_STR | INPUT_STR | INPUT
  | JMP | JZ | JNZ | JL | JG | JLE | JGE | CMP | CALL | RET
  | LOAD | STORE | LOAD_BP | STORE_BP | PUSH_BP | POP_BP | PUSH_STR
  | LOAD_INDIRECT | STORE_INDIRECT | ALLOC | FREE
  | FPUSH | FPOP | FADD | FSUB | FMUL | FDIV | FLOAD | FSTORE
  | FPRINT | FCMP | FNEG | FDUP | INT_TO_FP | FP_TO_INT
  | HALT
deriving DecidableEq, Repr

/-- The assigned opcode bytes of vm.h. -/
def Opcode.toByte : Opcode → Nat
  | .PUSH => 0x01 | .POP => 0x02 | .ADD => 0x03 | .SUB => 0x04 | .MUL => 0x05
  | .DIV => 0x06 | .MOD => 0x07 | .DUP => 0x08 | .SWAP => 0x09
  | .PRINT => 0x0A | .PRINT_STR => 0x0B | .INPUT_STR => 0x0C | .INPUT => 0x0D
  | .JMP => 0x10 | .JZ => 0x11 | .JNZ => 0x12 | .JL => 0x13 | .JG => 0x14
  | .JLE => 0x15 | .JGE => 0x16 | .CMP => 0x17 | .CALL => 0x18 | .RET => 0x19
  | .LOAD => 0x20 | .STORE => 0x21 | .LOAD_BP => 0x22 | .STORE_BP => 0x23
  | .PUSH_BP => 0x24 | .POP_BP => 0x25 | .PUSH_STR => 0x26
  | .LOAD_INDIRECT => 0x27 | .STORE_INDIRECT => 0x28 | .ALLOC => 0x29 | .FREE => 0x2A
  | .FPUSH => 0x30 | .FPOP => 0x31 | .FADD => 0x32 | .FSUB => 0x33 | .FMUL => 0x34
  | .FDIV => 0x35 | .FLOAD => 0x36 | .FSTORE => 0x37 | .FPRINT => 0x38
  | .FCMP => 0x39 | .FNEG => 0x3A | .FDUP => 0x3B | .INT_TO_FP => 0x3C
  | .FP_TO_INT => 0x3D
  | .HALT => 0xFF

/-- `Symbol::Type` (modelled from the spec and the uses in codegen.cpp). -/
inductive SymbolKind where
  | VARIABLE | PARAMETER | FUNCTION
deriving DecidableEq, Repr

/-- The `Symbol` record of the code generator symbol table.  Modelled from
the spec: codegen.h is absent; the fields and their zero/false defaults are
those read and written in codegen.cpp. -/
structure Symbol where
  type : SymbolKind := .VARIABLE
  offset : Int := 0
  address : Int := 0
  param_count : Nat := 0
  is_array : Bool := false
  is_heap_allocated : Bool := false
  is_float : Bool := false
deriving DecidableEq, Repr

/-- The `Label` record of the label table.  Modelled from the spec
(name to resolved address, defined flag, fixup position list). -/
structure LabelInfo where
  address : Int := 0
  defined : Bool := false
  fixup_positions : List Nat := []
deriving DecidableEq, Repr

/-- First-match association lookup (`std::unordered_map::find`). -/
def mapLookup {α : Type} : List (String × α) → String → Option α
  | [], _ => none
  | (k, v) :: rest, key => if k = key then some v else mapLookup rest key

/-- Insert-or-assign (`map[key] = value`); keys stay unique. -/
def mapSet {α : Type} : List (String × α) → String → α → List (String × α)
  | [], key, value => [(key, value)]
  | (k, v) :: rest, key, value =>
    if k = key then (k, value) :: rest else (k, v) :: mapSet rest key value

/-- The mutable fields of the `CodeGenerator` class. -/
structure CGState where
  bytecode : List Nat
  symbols : List (String × Symbol)
  labels : List (String × LabelInfo)
  string_table : List String
  class_names : List String
  current_offset : Int
  next_memory_addr : Int
  label_counter : Nat
deriving Repr

/-- The `CodeGenerator` constructor state. -/
def CGState.init : CGState := ⟨[], [], [], [], [], 0, 0, 0⟩

/-- The four little-endian bytes of an `int32_t` (`emitInt32`'s shifts and
masks applied to the two's-complement value). -/
def int32Bytes (v : Int) : List Nat :=
  let u := (v % 4294967296).toNat
  [u % 256, u / 256 % 256, u / 65536 % 256, u / 16777216 % 256]

/-- Decode a little-endian 32-bit sequence back to a signed value
(`memcpy` into `int32_t` in `VirtualMachine::readInt32`). -/
def int32OfBytes (b0 b1 b2 b3 : Nat) : Int :=
  let u := b0 % 256 + 256 * (b1 % 256) + 65536 * (b2 % 256) + 16777216 * (b3 % 256)
  if u < 2147483648 then (u : Int) else (u : Int) - 4294967296

/-- Overwrite bytes of the buffer starting at `pos` (`emitInt32At`). -/
def setBytesAt : List Nat → Nat → List Nat → List Nat
  | l, _, [] => l
  | l, pos, b :: bs => setBytesAt (l.set pos b) (pos + 1) bs

/-- Truncate a rational toward zero (`static_cast<int>` from a float). -/
def truncQ (q : ℚ) : Int := if q ≥ 0 then q.floor else -((-q).floor)

/-- Round a non-negative rational to the nearest integer, ties to even. -/
def roundEvenQ (q : ℚ) : Nat :=
  let p := q.num.toNat
  let d := q.den
  let n := p / d
  let r := p % d
  if 2 * r < d then n else if 2 * r > d then n + 1
  else if n % 2 = 0 then n else n + 1

/-- For `q > 0`, the exponent `e` with `2 ^ e ≤ q < 2 ^ (e + 1)`. -/
def ratExp2 (q : ℚ) : Int :=
  let e0 : Int := (Nat.log2 q.num.toNat : Int) - (Nat.log2 q.den : Int)
  if q < 2 ^ (e0 : Int) then e0 - 1
  else if q ≥ 2 ^ (e0 + 1) then e0 + 1
  else e0

/-- The IEEE binary32 bit pattern of a rational, round to nearest, ties to
even (the bits `memcpy`ed by `emitFloat32`; values beyond the finite range
give the infinity pattern). -/
def encodeFloat32 (q : ℚ) : Nat :=
  if q = 0 then 0
  else
    let sgn : Nat := if q < 0 then 2 ^ 31 else 0
    let x := |q|
    let e := ratExp2 x
    if e ≥ 128 then sgn + 0x7F800000
    else if e < -126 then
      sgn + roundEvenQ (x * 2 ^ (149 : Int))
    else
      let m := roundEvenQ (x * (2 : ℚ) ^ (23 - e))
      if m = 2 ^ 24 then
        if e + 1 ≥ 128 then sgn + 0x7F800000
        else sgn + (e + 1 + 127).toNat * 2 ^ 23
      else sgn + (e + 127).toNat * 2 ^ 23 + (m - 2 ^ 23)

/-- The exact rational value of an IEEE binary32 bit pattern (the
`memcpy` of `VirtualMachine::readFloat32`); the infinity and NaN patterns,
never produced by the embedded pipeline, are mapped to 0. -/
def decodeFloat32 (bits : Nat) : ℚ :=
  let sgn : ℚ := if (bits / 2 ^ 31) % 2 = 1 then -1 else 1
  let ex : Nat := (bits / 2 ^ 23) % 256
  let frac : Nat := bits % 2 ^ 23
  if ex = 0 then sgn * (frac : ℚ) * (2 : ℚ) ^ (-(149 : Int))
  else if ex = 255 then 0
  else sgn * ((2 ^ 23 + frac : Nat) : ℚ) * (2 : ℚ) ^ ((ex : Int) - 150)

/-- `std::stoi` (leading spaces, optional sign, decimal digits; `none`
models the `std::invalid_argument` / `std::out_of_range` exceptions). -/
def stoiOpt (s : String) : Option Int :=
  let l := s.toList.dropWhile (fun c => c = ' ' ∨ c = '\t' ∨ c = '\n' ∨ c = '\r')
  let (sgn, l) : Int × List Char :=
    match l with
    | '-' :: r => (-1, r)
    | '+' :: r => (1, r)
    | _ => (1, l)
  let ds := l.takeWhile isDigitC
  if ds = [] then none
  else
    let v : Int := sgn * (ds.foldl (fun a c => a * 10 + (c.toNat - 48)) 0 : Nat)
    if v < -2147483648 ∨ v > 2147483647 then none else some v

/-- The digits of a decimal string as a natural number. -/
def digitsToNat (l : List Char) : Nat :=
  l.foldl (fun a c => a * 10 + (c.toNat - 48)) 0

/-- `std::stof`, with the exact decimal value (the binary32 rounding
happens at `encodeFloat32` when the value is stored in the bytecode). -/
def stofQ (s : String) : Option ℚ :=
  let l := s.toList.dropWhile (fun c => c = ' ' ∨ c = '\t' ∨ c = '\n' ∨ c = '\r')
  let (sgn, l) : ℚ × List Char :=
    match l with
    | '-' :: r => (-1, r)
    | '+' :: r => (1, r)
    | _ => (1, l)
  let ip := l.takeWhile isDigitC
  let l1 := l.dropWhile isDigitC
  let (fp, l2) : List Char × List Char :=
    match l1 with
    | '.' :: r => (r.takeWhile isDigitC, r.dropWhile isDigitC)
    | _ => ([], l1)
  if ip = [] ∧ fp = [] then none
  else
    let mant : ℚ := (digitsToNat ip : ℚ) + (digitsToNat fp : ℚ) / ((10 : ℚ) ^ fp.length)
    let ex : Int :=
      match l2 with
      | 'e' :: r | 'E' :: r =>
        let (es, r1) : Int × List Char :=
          match r with
          | '-' :: rr => (-1, rr)
          | '+' :: rr => (1, rr)
          | _ => (1, r)
        es * (digitsToNat (r1.takeWhile isDigitC) : Int)
      | _ => 0
    some (sgn * mant * (10 : ℚ) ^ ex)

/-- `CodeGenerator::emit`. -/
def emit (g : CGState) (op : Opcode) : CGState :=
  { g with bytecode := g.bytecode ++ [op.toByte] }

/-- `CodeGenerator::emitInt32`. -/
def emitInt32 (g : CGState) (value : Int) : CGState :=
  { g with bytecode := g.bytecode ++ int32Bytes value }

/-- `CodeGenerator::emitInt32At`. -/
def emitInt32At (g : CGState) (pos : Nat) (value : Int) : CGState :=
  { g with bytecode := setBytesAt g.bytecode pos (int32Bytes value) }

/-- `CodeGenerator::emitFloat32`. -/
def emitFloat32 (g : CGState) (value : ℚ) : CGState :=
  let bits := encodeFloat32 value
  { g with bytecode := g.bytecode ++
      [bits % 256, bits / 256 % 256, bits / 65536 % 256, bits / 16777216 % 256] }

/-- `CodeGenerator::currentAddress`.  Modelled from the spec: codegen.h is
absent; `define_label` records the current end of the code buffer and
`emit_jump` the position of its 4 reserved operand bytes. -/
def currentAddress (g : CGState) : Nat := g.bytecode.length

/-- `CodeGenerator::isFloatLiteralStr`. -/
def isFloatLiteralStr (s : String) : Bool :=
  let l := s.toList
  if l = [] then false
  else if l.length ≥ 2 ∧ l.getD 0 (Char.ofNat 0) = '0' ∧
      (l.getD 1 (Char.ofNat 0) = 'x' ∨ l.getD 1 (Char.ofNat 0) = 'X') then false
  else l.any (fun c => c = '.' ∨ c = 'e' ∨ c = 'E')

/-- `CodeGenerator::isFloatType`. -/
def isFloatType (typeTokens : List String) : Bool :=
  typeTokens.any (fun t => t = "float" ∨ t = "double")

/-- `CodeGenerator::findSymbol`. -/
def findSymbol (g : CGState) (name : String) : Option Symbol :=
  mapLookup g.symbols name

/-- `CodeGenerator::isFloatExpr`. -/
def isFloatExpr (g : CGState) : AST → Bool
  | .lit value litType _ _ =>
    if litType = .STRING ∨ litType = .CHARACTER then false
    else isFloatLiteralStr value
  | .ident name _ _ =>
    match findSymbol g name with
    | some sym => sym.is_float
    | none => false
  | .binaryOp op left right _ _ =>
    if op = "=" then
      match left with
      | .ident name _ _ =>
        match findSymbol g name with
        | some sym => sym.is_float
        | none => false
      | _ => false
    else isFloatExpr g left || isFloatExpr g right
  | .unaryOp _ operand _ _ => isFloatExpr g operand
  | _ => false

/-- `CodeGenerator::makeLabel`. -/
def makeLabel (g : CGState) (pfx : String) : String × CGState :=
  (pfx ++ "_" ++ toString g.label_counter, { g with label_counter := g.label_counter + 1 })

/-- Update-or-create of a label table entry (`labels[label]`). -/
def labelsUpdate (g : CGState) (label : String) (f : LabelInfo → LabelInfo) : CGState :=
  let cur := (mapLookup g.labels label).getD {}
  { g with labels := mapSet g.labels label (f cur) }

/-- `CodeGenerator::defineLabel`. -/
def defineLabel (g : CGState) (label : String) : CGState :=
  labelsUpdate g label fun li =>
    { li with address := (currentAddress g : Int), defined := true }

/-- `CodeGenerator::emitJump`. -/
def emitJump (g : CGState) (op : Opcode) (label : String) : CGState :=
  let g := emit g op
  let g := labelsUpdate g label fun li =>
    { li with fixup_positions := li.fixup_positions ++ [currentAddress g] }
  emitInt32 g 0

/-- `CodeGenerator::fixupLabels` (an undefined label is reported to stderr
and leaves its zero placeholders). -/
def fixupOne (bc : List Nat) (nl : String × LabelInfo) : List Nat :=
  if nl.2.defined then
    nl.2.fixup_positions.foldl (fun b pos => setBytesAt b pos (int32Bytes nl.2.address)) bc
  else bc

def fixupLabels (g : CGState) : CGState :=
  let bc := g.labels.foldl fixupOne g.bytecode
  { g with bytecode := bc }

/-- `CodeGenerator::addString`. -/
def addString (g : CGState) (str : String) : Int × CGState :=
  match g.string_table.findIdx? (fun x => x = str) with
  | some i => ((i : Int), g)
  | none => ((g.string_table.length : Int), { g with string_table := g.string_table ++ [str] })

/-- `CodeGenerator::mangleFunctionName` (the parameter-count overload; the
per-type overload exists in the sources but is never called). -/
def mangleFunctionName (name : String) (param_count : Nat) : String :=
  if param_count = 0 then name else name ++ "_P" ++ toString param_count

/-- `CodeGenerator::addVariable`. -/
def addVariable (g : CGState) (name : String) (offset : Int)
    (is_array is_heap_allocated is_float : Bool) : CGState :=
  let sym : Symbol :=
    { type := .VARIABLE, offset := offset, is_array := is_array,
      is_heap_allocated := is_heap_allocated, is_float := is_float }
  { g with symbols := mapSet g.symbols name sym }

/-- The parameter-binding loop of `CodeGenerator::genFunctionDecl`. -/
def bindParams (g : CGState) (param_count : Nat) :
    List (List String × String) → Nat → CGState
  | [], _ => g
  | (ptype, pname) :: rest, i =>
    -- first param at BP-(param_count+1), last param at BP-2
    let offset : Int := -((param_count : Int) - (i : Int) + 1)
    let is_pointer := ptype.contains "*" || ptype.contains "[]"
    let sym : Symbol := { type := .PARAMETER, offset := offset, is_array := is_pointer }
    bindParams { g with symbols := mapSet g.symbols pname sym } param_count rest (i + 1)

/-- The `SWAP`/`POP` argument cleanup loop of `CodeGenerator::genCall`. -/
def genCallCleanup (g : CGState) : Nat → CGState
  | 0 => g
  | k + 1 => genCallCleanup (emit (emit g .SWAP) .POP) k

/-- The base-address push shared by the array paths of the generator
(array parameter / heap array / stack array / plain symbol). -/
def pushArrayBase (g : CGState) (sym : Symbol) : CGState :=
  if sym.type = .PARAMETER ∧ sym.is_array then emitInt32 (emit g .LOAD_BP) sym.offset
  else if sym.type = .VARIABLE ∧ sym.is_heap_allocated then emitInt32 (emit g .LOAD) sym.offset
  else if sym.type = .VARIABLE ∧ sym.is_array then emitInt32 (emit g .PUSH) sym.offset
  else emitInt32 (emit g .PUSH) sym.offset

/-- The `CMP`-plus-conditional-jump pattern of the four integer comparison
branches of `CodeGenerator::genBinaryOp`. -/
def genCmpJump (g : CGState) (jmpOp : Opcode) : CGState :=
  let (true_label, g) := makeLabel g "cmp_true"
  let (end_label, g) := makeLabel g "cmp_end"
  let g := emitJump g jmpOp true_label
  let g := emitInt32 (emit g .PUSH) 0
  let g := emitJump g .JMP end_label
  let g := defineLabel g true_label
  let g := emitInt32 (emit g .PUSH) 1
  defineLabel g end_label

/-- The leftmost-identifier walk of the `<<` branch of
`CodeGenerator::genBinaryOp`. -/
def leftmostNode : AST → AST
  | .binaryOp _ left _ _ _ => leftmostNode left
  | n => n

/-- `CodeGenerator::genLiteral`. -/
def genLiteral (g : CGState) (node : AST) : CGState :=
  match node with
  | .lit value litType _ _ =>
    if litType = .STRING then
      let (str_id, g) := addString g value
      emitInt32 (emit g .PUSH_STR) str_id
    else if litType = .NUMBER ∧ isFloatLiteralStr value then
      let fval := (stofQ value).getD 0
      emitFloat32 (emit g .FPUSH) fval
    else
      let v : Int :=
        if litType = .CHARACTER ∨
            (value.length = 1 ∧ ¬ isDigitC (value.toList.getD 0 (Char.ofNat 0))) then
          ((value.toList.getD 0 (Char.ofNat 0)).toNat : Int)
        else
          match stoiOpt value with
          | some n => n
          | none =>
            -- try as float, convert to int
            match stofQ value with
            | some q => truncQ q
            | none => 0
      emitInt32 (emit g .PUSH) v
  | _ => g

/-- `CodeGenerator::genIdentifier`. -/
def genIdentifier (g : CGState) (node : AST) : CGState :=
  match node with
  | .ident name _ _ =>
    if name = "std" ∨ name = "cout" ∨ name = "cin" ∨ name = "endl" ∨ name = "cerr" then
      emitInt32 (emit g .PUSH) 0
    else
      match findSymbol g name with
      | some sym =>
        if sym.type = .VARIABLE then
          if sym.is_float then emitInt32 (emit g .FLOAD) sym.offset
          else if sym.is_heap_allocated then emitInt32 (emit g .LOAD) sym.offset
          else if sym.is_array then emitInt32 (emit g .PUSH) sym.offset
          else emitInt32 (emit g .LOAD) sym.offset
        else if sym.type = .PARAMETER then
          emitInt32 (emit g .LOAD_BP) sym.offset
        else
          emitInt32 (emit g .PUSH) sym.address
      | none => emitInt32 (emit g .PUSH) 0
  | _ => g

/-- The prologue of `CodeGenerator::genFunctionDecl` (label definition,
`PUSH_BP`, parameter binding). -/
def funcPrologue (g : CGState) (nameOverride : String)
    (params : List (List String × String)) : CGState :=
  let g := defineLabel g nameOverride
  let g := emit g .PUSH_BP
  bindParams g params.length params 0

/-- The unconditional epilogue of `CodeGenerator::genFunctionDecl`. -/
def funcEpilogue (g : CGState) : CGState :=
  emit (emit g .POP_BP) .RET

mutual

/-- The second loop of `CodeGenerator::genProgram` (top-level emission). -/
def genTopLevel : List AST → CGState → CGState
  | [], g => g
  | node :: rest, g =>
    let g :=
      match node with
      | .classDecl className members _ _ _ => genClassMembers members className g
      | _ => genStatement node g
    genTopLevel rest g
termination_by structural l => l

/-- The member-function emission of `CodeGenerator::genProgram` for a
class declaration (each member `FUNC_DECL` is emitted by
`genFunctionDecl` under the qualified label `ClassName::funcName`). -/
def genClassMembers : List AST → String → CGState → CGState
  | [], _, g => g
  | m :: rest, className, g =>
    let g :=
      match m with
      | .funcDecl _ funcName params body _ _ _ =>
        let g := funcPrologue g (className ++ "::" ++ funcName) params
        let g := genStatementOpt body g
        funcEpilogue g
      | _ => g
    genClassMembers rest className g
termination_by structural l _ => l

/-- `CodeGenerator::genStatement`; the bodies of the statement helpers
(`genVarDecl`, `genFunctionDecl`, `genBlock`, `genIf`, `genWhile`,
`genFor`, `genReturn`) are inlined into the dispatch arms; the named
wrappers below restate them and are tied to these arms by `rfl`. -/
def genStatement (node : AST) (g : CGState) : CGState :=
  match node with
  | .varDecl typeTokens varName init isPointerFlag _ isArrayFlag _ _ =>
    -- `CodeGenerator::genVarDecl`
    let is_pointer := isPointerFlag || typeTokens.contains "*"
    let is_heap_array :=
      is_pointer &&
        match init with
        | some (.unaryOp op _ _ _) => op = "new"
        | _ => false
    let is_array := isArrayFlag || is_heap_array
    let is_float_var := !is_pointer && !is_array && isFloatType typeTokens
    let addr := g.next_memory_addr
    let g := { g with next_memory_addr := g.next_memory_addr + 1 }
    let g := addVariable g varName addr is_array is_heap_array is_float_var
    (match init with
    | some ie =>
      if is_float_var then
        let g := genExpression ie g
        let g := if ¬ isFloatExpr g ie then emit g .INT_TO_FP else g
        emitInt32 (emit g .FSTORE) addr
      else
        let g := genExpression ie g
        let g := emitInt32 (emit g .PUSH) addr
        emit g .STORE
    | none => g)
  | .funcDecl _ funcName params body _ _ _ =>
    -- `CodeGenerator::genFunctionDecl` (parameter-count name mangling)
    let g := funcPrologue g (mangleFunctionName funcName params.length) params
    let g := genStatementOpt body g
    funcEpilogue g
  | .blockStmt statements _ _ =>
    -- `CodeGenerator::genBlock`
    genStmtList statements g
  | .ifStmt cond thenBranch elseBranch _ _ =>
    -- `CodeGenerator::genIf`
    let (else_label, g) := makeLabel g "else"
    let (end_label, g) := makeLabel g "endif"
    let g := genExpression cond g
    let g := emitJump g .JZ else_label
    let g := genStatementOpt thenBranch g
    let g := emitJump g .JMP end_label
    let g := defineLabel g else_label
    let g := genStatementOpt elseBranch g
    defineLabel g end_label
  | .whileStmt cond body _ _ =>
    -- `CodeGenerator::genWhile`
    let (loop_start, g) := makeLabel g "while_start"
    let (loop_end, g) := makeLabel g "while_end"
    let g := defineLabel g loop_start
    let g := genExpression cond g
    let g := emitJump g .JZ loop_end
    let g := genStatementOpt body g
    let g := emitJump g .JMP loop_start
    defineLabel g loop_end
  | .forStmt init cond post body _ _ =>
    -- `CodeGenerator::genFor`
    let (loop_start, g) := makeLabel g "for_start"
    let (loop_end, g) := makeLabel g "for_end"
    let g := genStatementOpt init g
    let g := defineLabel g loop_start
    let g :=
      match cond with
      | some c =>
        let g := genExpression c g
        emitJump g .JZ loop_end
      | none => g
    let g := genStatementOpt body g
    let g :=
      match post with
      | some p =>
        let g := genExpression p g
        if isFloatExpr g p then emit g .FPOP else emit g .POP
      | none => g
    let g := emitJump g .JMP loop_start
    defineLabel g loop_end
  | .returnStmt expr _ _ =>
    -- `CodeGenerator::genReturn`
    let g :=
      match expr with
      | some e => genExpression e g
      | none => g
    emit (emit g .POP_BP) .RET
  | .exprStmt expr _ _ =>
    (match expr with
    | some e =>
      let g := genExpression e g
      -- float expressions leave their result on the FPU stack
      if isFloatExpr g e then emit g .FPOP else emit g .POP
    | none => g)
  | .classDecl _ _ _ _ _ => g
  | .structDecl _ _ _ _ => g
  | .namespaceDecl _ _ _ _ => g
  | .templateDecl _ _ _ _ => g
  | .accessSpec _ _ _ => g
  | .includeDirective _ _ _ _ => g
  | .usingDirective _ _ _ => g
  | _ => g
termination_by structural node

/-- `genStatement` on a possibly null node (the C++ null guard). -/
def genStatementOpt : Option AST → CGState → CGState
  | some n, g => genStatement n g
  | none, g => g
termination_by structural o _ => o

/-- The statement loop of `CodeGenerator::genBlock`. -/
def genStmtList : List AST → CGState → CGState
  | [], g => g
  | st :: rest, g => genStmtList rest (genStatement st g)
termination_by structural l _ => l

/-- `CodeGenerator::genExpression`; the bodies of the expression helpers
(`genBinaryOp`, `genUnaryOp`, `genCall`, `genArraySubscript`) are inlined
into the dispatch arms; the named wrappers below restate them and are
tied to these arms by `rfl`. -/
def genExpression (node : AST) (g : CGState) : CGState :=
  match node with
  | .binaryOp op left right _ _ =>
    -- `CodeGenerator::genBinaryOp`
    if op = "=" then
      match left with
      | .unaryOp uop operand _ _ =>
        if uop = "*" then
          -- *ptr = value
          let g := genExpression right g
          let g := emit g .DUP
          let g := genExpression operand g
          emit g .STORE_INDIRECT
        else g
      | .arraySubscript arr index _ _ =>
        let g := genExpression right g
        let g := emit g .DUP
        (match arr with
        | .ident iname _ _ =>
          (match findSymbol g iname with
          | some sym =>
            let g := pushArrayBase g sym
            let g := genExpression index g
            let g := emit g .ADD
            emit g .STORE_INDIRECT
          | none => g)
        | _ => g)
      | .ident iname _ _ =>
        let sym := findSymbol g iname
        let g := genExpression right g
        (match sym with
        | some sy =>
          if sy.is_float then
            let g := if ¬ isFloatExpr g right then emit g .INT_TO_FP else g
            let g := emit g .FDUP
            emitInt32 (emit g .FSTORE) sy.offset
          else if sy.type = .PARAMETER then
            let g := emit g .DUP
            emitInt32 (emit g .STORE_BP) sy.offset
          else
            let g := emit g .DUP
            let g := emitInt32 (emit g .PUSH) sy.offset
            emit g .STORE
        | none => g)
      | _ => g
    else if op = "<<" then
      let isCoutChain : Bool :=
        match leftmostNode left with
        | .ident n _ _ => n = "std::cout"
        | _ => false
      if isCoutChain then
        -- if the left is another << chain, process it first
        -- (genExpression on a BINARY_OP node is exactly genBinaryOp)
        let g :=
          match left with
          | .binaryOp _ _ _ _ _ => genExpression left g
          | _ => g
        let g :=
          match right with
          | .lit v lt _ _ =>
            if lt = .STRING then
              let (str_id, g) := addString g v
              let g := emitInt32 (emit g .PUSH_STR) str_id
              emit g .PRINT_STR
            else
              let g := genExpression right g
              if isFloatExpr g right then emit g .FPRINT else emit g .PRINT
          | _ =>
            let g := genExpression right g
            if isFloatExpr g right then emit g .FPRINT else emit g .PRINT
        emitInt32 (emit g .PUSH) 0
      else
        match right with
        | .lit v lt _ _ =>
          if lt = .STRING then
            let (str_id, g) := addString g v
            let g := emitInt32 (emit g .PUSH_STR) str_id
            let g := emit g .PRINT_STR
            emitInt32 (emit g .PUSH) 0
          else
            let g := genExpression right g
            let g := if isFloatExpr g right then emit g .FPRINT else emit g .PRINT
            emitInt32 (emit g .PUSH) 0
        | _ =>
          let g := genExpression right g
          let g := if isFloatExpr g right then emit g .FPRINT else emit g .PRINT
          emitInt32 (emit g .PUSH) 0
    else if op = ">>" then
      let g := emit g .INPUT
      let g :=
        match right with
        | .ident iname _ _ =>
          (match findSymbol g iname with
          | some sym =>
            if sym.type = .PARAMETER then
              emitInt32 (emit g .STORE_BP) sym.offset
            else
              let g := emitInt32 (emit g .PUSH) sym.offset
              emit g .STORE
          | none => g)
        | .arraySubscript arr index _ _ =>
          (match arr with
          | .ident iname _ _ =>
            (match findSymbol g iname with
            | some sym =>
              let g := pushArrayBase g sym
              let g := genExpression index g
              let g := emit g .ADD
              emit g .STORE_INDIRECT
            | none => g)
          | _ => g)
        | _ => g
      emitInt32 (emit g .PUSH) 0
    else
      -- regular binary operations
      let leftIsFloat := isFloatExpr g left
      let rightIsFloat := isFloatExpr g right
      let eitherFloat := leftIsFloat || rightIsFloat
      if eitherFloat ∧ (op = "+" ∨ op = "-" ∨ op = "*" ∨ op = "/") then
        let g := genExpression left g
        let g := if ¬ leftIsFloat then emit g .INT_TO_FP else g
        let g := genExpression right g
        let g := if ¬ rightIsFloat then emit g .INT_TO_FP else g
        if op = "+" then emit g .FADD
        else if op = "-" then emit g .FSUB
        else if op = "*" then emit g .FMUL
        else emit g .FDIV
      else if eitherFloat ∧ (op = "<" ∨ op = ">" ∨ op = "<=" ∨ op = ">=" ∨
          op = "==" ∨ op = "!=") then
        let g := genExpression left g
        let g := if ¬ leftIsFloat then emit g .INT_TO_FP else g
        let g := genExpression right g
        let g := if ¬ rightIsFloat then emit g .INT_TO_FP else g
        let (true_label, g) := makeLabel g "fcmp_true"
        let (end_label, g) := makeLabel g "fcmp_end"
        if op = "==" ∨ op = "!=" then
          let g := emit g .FSUB
          let g := emit g .FP_TO_INT
          let g := emit g .DUP
          let g := emitJump g .JZ true_label
          let g := emit g .POP
          let g := emitInt32 (emit g .PUSH) (if op = "==" then 0 else 1)
          let g := emitJump g .JMP end_label
          let g := defineLabel g true_label
          let g := emit g .POP
          let g := emitInt32 (emit g .PUSH) (if op = "==" then 1 else 0)
          defineLabel g end_label
        else
          let g := emit g .FCMP
          let jmpOp : Opcode :=
            if op = "<" then .JL else if op = ">" then .JG
            else if op = "<=" then .JLE else .JGE
          let g := emitJump g jmpOp true_label
          let g := emitInt32 (emit g .PUSH) 0
          let g := emitJump g .JMP end_label
          let g := defineLabel g true_label
          let g := emitInt32 (emit g .PUSH) 1
          defineLabel g end_label
      else
        let g := genExpression left g
        let g := genExpression right g
        if op = "+" then emit g .ADD
        else if op = "-" then emit g .SUB
        else if op = "*" then emit g .MUL
        else if op = "/" then emit g .DIV
        else if op = "%" then emit g .MOD
        else if op = "<" then genCmpJump (emit g .CMP) .JL
        else if op = ">" then genCmpJump (emit g .CMP) .JG
        else if op = "<=" then genCmpJump (emit g .CMP) .JLE
        else if op = ">=" then genCmpJump (emit g .CMP) .JGE
        else if op = "==" then
          let g := emit g .SUB
          let (true_label, g) := makeLabel g "cmp_true"
          let (end_label, g) := makeLabel g "cmp_end"
          let g := emit g .DUP
          let g := emitJump g .JZ true_label
          let g := emit g .POP
          let g := emitInt32 (emit g .PUSH) 0
          let g := emitJump g .JMP end_label
          let g := defineLabel g true_label
          let g := emit g .POP
          let g := emitInt32 (emit g .PUSH) 1
          defineLabel g end_label
        else if op = "!=" then
          let g := emit g .SUB
          let (true_label, g) := makeLabel g "cmp_true"
          let (end_label, g) := makeLabel g "cmp_end"
          let g := emit g .DUP
          let g := emitJump g .JZ true_label
          let g := emit g .POP
          let g := emitInt32 (emit g .PUSH) 1
          let g := emitJump g .JMP end_label
          let g := defineLabel g true_label
          let g := emit g .POP
          let g := emitInt32 (emit g .PUSH) 0
          defineLabel g end_label
        else
          -- unknown operator: discard operands and push 0
          let g := emit g .POP
          let g := emit g .POP
          emitInt32 (emit g .PUSH) 0
  | .unaryOp op operand _ _ =>
    -- `CodeGenerator::genUnaryOp`
    if op = "new" then
      match operand with
      | .arraySubscript _ index _ _ =>
        -- new T[size]: array allocation
        let g := genExpression index g
        emit g .ALLOC
      | _ =>
        -- new T: single allocation
        let g := emitInt32 (emit g .PUSH) 1
        emit g .ALLOC
    else if op = "delete" then
      let g := genExpression operand g
      let g := emit g .FREE
      emitInt32 (emit g .PUSH) 0
    else if op = "&" then
      match operand with
      | .ident iname _ _ =>
        (match findSymbol g iname with
        | some sym =>
          if sym.type = .VARIABLE then emitInt32 (emit g .PUSH) sym.offset
          else emitInt32 (emit g .PUSH) 0
        | none => emitInt32 (emit g .PUSH) 0)
      | .arraySubscript arr index _ _ =>
        (match arr with
        | .ident iname _ _ =>
          (match findSymbol g iname with
          | some sym =>
            let g := pushArrayBase g sym
            let g := genExpression index g
            emit g .ADD
          | none => emitInt32 (emit g .PUSH) 0)
        | _ => emitInt32 (emit g .PUSH) 0)
      | _ => emitInt32 (emit g .PUSH) 0
    else if op = "*" then
      let g := genExpression operand g
      emit g .LOAD_INDIRECT
    else
      let g := genExpression operand g
      if op = "-" then
        if isFloatExpr g operand then emit g .FNEG
        else
          let g := emitInt32 (emit g .PUSH) 0
          emit (emit g .SWAP) .SUB
      else g
  | .callExpr callee args _ _ =>
    -- `CodeGenerator::genCall`
    (match callee with
    | .ident cname _ _ =>
      if cname ∈ g.class_names then
        -- constructor call: push dummy value
        emitInt32 (emit g .PUSH) 0
      else if cname = "print" then
        let g := genPrintArgs args g
        emitInt32 (emit g .PUSH) 0
      else if cname = "println" then
        let g := genPrintlnArgs args g
        let (str_id, g) := addString g "\n"
        let g := emitInt32 (emit g .PUSH) str_id
        let g := emit g .PRINT_STR
        emitInt32 (emit g .PUSH) 0
      else
        let arg_count := args.length
        let g := genExprList args g
        let g := emitJump g .CALL (mangleFunctionName cname arg_count)
        genCallCleanup g arg_count
    | _ => g)
  | .lit v lt ln c => genLiteral g (.lit v lt ln c)
  | .ident n ln c => genIdentifier g (.ident n ln c)
  | .arraySubscript arr index _ _ =>
    -- `CodeGenerator::genArraySubscript`
    (match arr with
    | .ident iname _ _ =>
      (match findSymbol g iname with
      | some sym =>
        let g := pushArrayBase g sym
        let g := genExpression index g
        let g := emit g .ADD
        emit g .LOAD_INDIRECT
      | none => g)
    | _ => g)
  | .memberAccess _ _ _ _ _ =>
    -- std::cout and other I/O related nodes: push 0 as placeholder
    emitInt32 (emit g .PUSH) 0
  | _ =>
    -- unhandled expression kind: warning and a dummy 0
    emitInt32 (emit g .PUSH) 0
termination_by structural node

/-- The argument loop of the `print` builtin in `CodeGenerator::genCall`. -/
def genPrintArgs : List AST → CGState → CGState
  | [], g => g
  | arg :: rest, g =>
    let g := genExpression arg g
    let g := if isFloatExpr g arg then emit g .FPRINT else emit g .PRINT
    genPrintArgs rest g
termination_by structural l _ => l

/-- The argument loop of the `println` builtin in `CodeGenerator::genCall`. -/
def genPrintlnArgs : List AST → CGState → CGState
  | [], g => g
  | arg :: rest, g =>
    let g := genExpression arg g
    let g :=
      match arg with
      | .lit _ lt _ _ =>
        if lt = .STRING then emit g .PRINT_STR
        else if isFloatExpr g arg then emit g .FPRINT
        else emit g .PRINT
      | _ => if isFloatExpr g arg then emit g .FPRINT else emit g .PRINT
    genPrintlnArgs rest g
termination_by structural l _ => l

/-- The argument emission loop of the regular-call path of
`CodeGenerator::genCall`. -/
def genExprList : List AST → CGState → CGState
  | [], g => g
  | arg :: rest, g => genExprList rest (genExpression arg g)
termination_by structural l _ => l

end

/-- `CodeGenerator::genCall` as a named function (its body is inlined in
the `callExpr` arm of `genExpression`; `genExpression_callExpr` below
checks the two are definitionally equal). -/
def genCall (node : AST) (g : CGState) : CGState :=
  match node with
  | .callExpr callee args _ _ =>
    (match callee with
    | .ident cname _ _ =>
      if cname ∈ g.class_names then
        emitInt32 (emit g .PUSH) 0
      else if cname = "print" then
        let g := genPrintArgs args g
        emitInt32 (emit g .PUSH) 0
      else if cname = "println" then
        let g := genPrintlnArgs args g
        let (str_id, g) := addString g "\n"
        let g := emitInt32 (emit g .PUSH) str_id
        let g := emit g .PRINT_STR
        emitInt32 (emit g .PUSH) 0
      else
        let arg_count := args.length
        let g := genExprList args g
        let g := emitJump g .CALL (mangleFunctionName cname arg_count)
        genCallCleanup g arg_count
    | _ => g)
  | _ => g

/-- `CodeGenerator::genFunctionDecl` (name-override overload) as a named
function (inlined in `genStatement` and `genClassMembers`;
`genStatement_funcDecl` below checks the tie). -/
def genFunctionDeclOv (node : AST) (nameOverride : String) (g : CGState) : CGState :=
  match node with
  | .funcDecl _ _ params body _ _ _ =>
    let g := funcPrologue g nameOverride params
    let g := genStatementOpt body g
    funcEpilogue g
  | _ => g

/-- `CodeGenerator::genFunctionDecl` (the mangling wrapper). -/
def genFunctionDecl (node : AST) (g : CGState) : CGState :=
  match node with
  | .funcDecl rt funcName params body ic ln c =>
    genFunctionDeclOv (.funcDecl rt funcName params body ic ln c)
      (mangleFunctionName funcName params.length) g
  | _ => g

/-- The class/struct name collection loop of `CodeGenerator::genProgram`
(`class_names` is a `std::set`: insertion keeps one copy). -/
def collectClassNames (prog : Program) (g : CGState) : CGState :=
  prog.foldl
    (fun g node =>
      match node with
      | .classDecl n _ _ _ _ =>
        { g with class_names := if n ∈ g.class_names then g.class_names else g.class_names ++ [n] }
      | .structDecl n _ _ _ =>
        { g with class_names := if n ∈ g.class_names then g.class_names else g.class_names ++ [n] }
      | _ => g)
    g

/-- `CodeGenerator::genProgram`. -/
def genProgram (prog : Program) (g : CGState) : CGState :=
  -- entry point that calls main and halts
  let g := emitJump g .CALL "main"
  let g := emit g .HALT
  let g := collectClassNames prog g
  genTopLevel prog g

/-- `CodeGenerator::generate`. -/
def generate (prog : Program) : CGState :=
  let g := CGState.init
  let g := genProgram prog g
  fixupLabels g

/-- Little-endian bytes of a `u32` (file header fields). -/
def u32BytesLE (n : Nat) : List Nat :=
  [n % 256, n / 256 % 256, n / 65536 % 256, n / 16777216 % 256]

/-- The byte sequence of a string as written by `file.write` (the pipeline
only produces ASCII strings, where code points and bytes coincide). -/
def strBytes (s : String) : List Nat := s.toList.map Char.toNat

/-- `CodeGenerator::saveToFile`: the bytes of the produced file
(string count, length-prefixed strings, code size, code segment). -/
def saveToFile (g : CGState) : List Nat :=
  u32BytesLE g.string_table.length ++
    g.string_table.foldl (fun acc s => acc ++ u32BytesLE s.length ++ strBytes s) [] ++
    u32BytesLE g.bytecode.length ++ g.bytecode

/-!
The virtual machine (vm.cpp / vm.h).  Standard output is a list of events
(`PRINT` appends the integer, `PRINT_STR` the string, `FPRINT` the float);
standard input is a list of pending `INPUT` results (`none` models a
failed `std::cin >> value` parse) and a list of pending `INPUT_STR` lines.
-/

/-- `VirtualMachine::HeapBlock`. -/
structure HeapBlock where
  start : Nat
  size : Nat
  allocated : Bool
deriving DecidableEq, Repr

/-- One event on standard output. -/
inductive OutEvt where
  | int (v : Int)
  | str (s : String)
  | flt (q : ℚ)
deriving DecidableEq, Repr

/-- `VMObject` (vm.h). -/
structure VMObject where
  className : String
  fields : List (String × Int)
deriving DecidableEq, Repr

/-- The `VirtualMachine` state (vm.h data members, plus the modelled
standard streams). -/
structure VMState where
  bytecode : List Nat
  instruction_pointer : Nat
  halted : Bool
  error_flag : Bool
  error_message : String
  stack : List Int
  memory : List Int
  call_stack : List (Nat × Nat)
  base_pointer : Nat
  heap : List Int
  heap_blocks : List HeapBlock
  heap_start_addr : Nat
  string_table : List String
  objects : List (Int × VMObject)
  next_object_id : Int
  cmp_flag : Int
  fpu_regs : List ℚ
  fpu_top : Nat
  float_memory : List ℚ
  instruction_count : Nat
  max_stack_size : Nat
  output : List OutEvt
  input_ints : List (Option Int)
  input_lines : List String
deriving Repr

/-- The `VirtualMachine` constructor (1KB static memory, 4KB heap, heap
base 10000, 8 zeroed FPU slots). -/
def vmNew : VMState where
  bytecode := []
  instruction_pointer := 0
  halted := false
  error_flag := false
  error_message := ""
  stack := []
  memory := List.replicate 1024 0
  call_stack := []
  base_pointer := 0
  heap := List.replicate 4096 0
  heap_blocks := []
  heap_start_addr := 10000
  string_table := []
  objects := []
  next_object_id := 1
  cmp_flag := 0
  fpu_regs := List.replicate 8 0
  fpu_top := 0
  float_memory := List.replicate 1024 0
  instruction_count := 0
  max_stack_size := 0
  output := []
  input_ints := []
  input_lines := []

/-- `std::vector::resize`. -/
def listResize {α : Type} (l : List α) (n : Nat) (fill : α) : List α :=
  l.take n ++ List.replicate (n - l.length) fill

/-- `VirtualMachine::reset`: note that neither the heap contents, the heap
block list, the loaded bytecode nor the string table is touched, and that
`std::fill` zeroes `memory` and `float_memory` without shrinking them. -/
def reset (vm : VMState) : VMState :=
  { vm with
    instruction_pointer := 0
    halted := false
    error_flag := false
    error_message := ""
    stack := []
    call_stack := []
    objects := []
    base_pointer := 0
    next_object_id := 1
    cmp_flag := 0
    instruction_count := 0
    max_stack_size := 0
    fpu_top := 0
    fpu_regs := List.replicate 8 0
    float_memory := vm.float_memory.map (fun _ => 0)
    memory := vm.memory.map (fun _ => 0) }

/-- `VirtualMachine::loadBytecode`. -/
def loadBytecode (vm : VMState) (code : List Nat) : VMState :=
  reset { vm with bytecode := code }

/-- `VirtualMachine::error`. -/
def vmError (vm : VMState) (msg : String) : VMState :=
  { vm with error_flag := true, error_message := msg, halted := true }

/-- `VirtualMachine::push` (back of the list is the top of the stack). -/
def push (vm : VMState) (value : Int) : VMState :=
  { vm with stack := vm.stack ++ [value] }

/-- `VirtualMachine::pop`. -/
def pop (vm : VMState) : Int × VMState :=
  match vm.stack.getLast? with
  | none => (0, vmError vm "Stack underflow")
  | some v => (v, { vm with stack := vm.stack.dropLast })

/-- `VirtualMachine::peek`. -/
def peekV (vm : VMState) : Int :=
  (vm.stack.getLast?).getD 0

/-- `size_t` cast of an `int32_t` (addresses and the saved base pointer). -/
def intToSizeT (v : Int) : Nat := (v % 18446744073709551616).toNat

/-- `int32_t` two's-complement wrap (the spec fixes wrap-around semantics
for `+ - *`). -/
def wrap32 (x : Int) : Int := (x + 2147483648) % 4294967296 - 2147483648

/-- `VirtualMachine::isHeapAddress`. -/
def isHeapAddress (vm : VMState) (addr : Int) : Bool :=
  addr ≥ (vm.heap_start_addr : Int)

/-- `VirtualMachine::storeMemory`. -/
def storeMemory (vm : VMState) (addr value : Int) : VMState :=
  if addr < 0 then vmError vm "Negative memory address"
  else if isHeapAddress vm addr then
    let heap_offset := (addr - vm.heap_start_addr).toNat
    let heap :=
      if heap_offset ≥ vm.heap.length then listResize vm.heap (heap_offset + 1024) 0
      else vm.heap
    { vm with heap := heap.set heap_offset value }
  else
    let a := addr.toNat
    let memory :=
      if a ≥ vm.memory.length then listResize vm.memory (a + 1024) 0 else vm.memory
    { vm with memory := memory.set a value }

/-- `VirtualMachine::loadMemory`. -/
def loadMemory (vm : VMState) (addr : Int) : Int × VMState :=
  if addr < 0 then (0, vmError vm "Negative memory address")
  else if isHeapAddress vm addr then
    let heap_offset := (addr - vm.heap_start_addr).toNat
    if heap_offset ≥ vm.heap.length then (0, vmError vm "Heap memory access out of bounds")
    else (vm.heap.getD heap_offset 0, vm)
  else
    if addr.toNat ≥ vm.memory.length then (0, vmError vm "Memory access out of bounds")
    else (vm.memory.getD addr.toNat 0, vm)

/-- `VirtualMachine::allocateHeap` (first fit; a larger free block is
split, with the remainder appended at the end of the block vector; with no
fit, a fresh block is placed after the *last vector entry*). -/
def allocateHeap (vm : VMState) (size : Nat) : Int × VMState :=
  match vm.heap_blocks.findIdx? (fun b => !b.allocated && size ≤ b.size) with
  | some i =>
    let block := vm.heap_blocks.getD i ⟨0, 0, false⟩
    let blocks :=
      if block.size > size then
        (vm.heap_blocks.set i { block with size := size, allocated := true }) ++
          [⟨block.start + size, block.size - size, false⟩]
      else vm.heap_blocks.set i { block with allocated := true }
    let heap :=
      if block.start + size > vm.heap.length then listResize vm.heap (block.start + size + 1024) 0
      else vm.heap
    (((vm.heap_start_addr + block.start : Nat) : Int),
      { vm with heap_blocks := blocks, heap := heap })
  | none =>
    let new_start :=
      match vm.heap_blocks.getLast? with
      | some last => last.start + last.size
      | none => 0
    let heap :=
      if new_start + size > vm.heap.length then listResize vm.heap (new_start + size + 1024) 0
      else vm.heap
    (((vm.heap_start_addr + new_start : Nat) : Int),
      { vm with heap_blocks := vm.heap_blocks ++ [⟨new_start, size, true⟩], heap := heap })

/-- The cell-zeroing loop of `VirtualMachine::freeHeap` (`List.set` ignores
out-of-range indices exactly like the C++ bounds check). -/
def zeroRange (heap : List Int) (start : Nat) : Nat → List Int
  | 0 => heap
  | k + 1 => zeroRange (heap.set start 0) (start + 1) k

/-- `VirtualMachine::freeHeap`. -/
def freeHeap (vm : VMState) (addr : Int) : VMState :=
  if ¬ isHeapAddress vm addr then vmError vm "Attempting to free non-heap address"
  else
    let heap_offset := (addr - vm.heap_start_addr).toNat
    match vm.heap_blocks.findIdx? (fun b => b.start = heap_offset && b.allocated) with
    | some i =>
      let block := vm.heap_blocks.getD i ⟨0, 0, false⟩
      { vm with
        heap_blocks := vm.heap_blocks.set i { block with allocated := false }
        heap := zeroRange vm.heap block.start block.size }
    | none => vmError vm "Invalid heap address for free operation"

/-- `VirtualMachine::readByte`. -/
def readByte (vm : VMState) : Nat × VMState :=
  if vm.instruction_pointer ≥ vm.bytecode.length then
    (0, vmError vm "Unexpected end of bytecode")
  else
    (vm.bytecode.getD vm.instruction_pointer 0,
      { vm with instruction_pointer := vm.instruction_pointer + 1 })

/-- `VirtualMachine::readInt32`. -/
def readInt32 (vm : VMState) : Int × VMState :=
  if vm.instruction_pointer + 4 > vm.bytecode.length then
    (0, vmError vm "Unexpected end of bytecode reading int32")
  else
    (int32OfBytes (vm.bytecode.getD vm.instruction_pointer 0)
        (vm.bytecode.getD (vm.instruction_pointer + 1) 0)
        (vm.bytecode.getD (vm.instruction_pointer + 2) 0)
        (vm.bytecode.getD (vm.instruction_pointer + 3) 0),
      { vm with instruction_pointer := vm.instruction_pointer + 4 })

/-- `VirtualMachine::readFloat32`. -/
def readFloat32 (vm : VMState) : ℚ × VMState :=
  if vm.instruction_pointer + 4 > vm.bytecode.length then
    (0, vmError vm "Unexpected end of bytecode reading float32")
  else
    (decodeFloat32 (vm.bytecode.getD vm.instruction_pointer 0 +
        256 * vm.bytecode.getD (vm.instruction_pointer + 1) 0 +
        65536 * vm.bytecode.getD (vm.instruction_pointer + 2) 0 +
        16777216 * vm.bytecode.getD (vm.instruction_pointer + 3) 0),
      { vm with instruction_pointer := vm.instruction_pointer + 4 })

/-- `VirtualMachine::fpush` (x87-style circular stack:
`fpu_top = (fpu_top - 1 + 8) % 8`, then write). -/
def fpush (vm : VMState) (value : ℚ) : VMState :=
  let t := (vm.fpu_top + 7) % 8
  { vm with fpu_top := t, fpu_regs := vm.fpu_regs.set t value }

/-- `VirtualMachine::fpop` (read the top, zero it, advance modulo 8). -/
def fpop (vm : VMState) : ℚ × VMState :=
  (vm.fpu_regs.getD vm.fpu_top 0,
    { vm with
      fpu_regs := vm.fpu_regs.set vm.fpu_top 0
      fpu_top := (vm.fpu_top + 1) % 8 })

/-- `VirtualMachine::fpeek`. -/
def fpeek (vm : VMState) : ℚ :=
  vm.fpu_regs.getD vm.fpu_top 0

/-- `VirtualMachine::printValue`. -/
def printValue (vm : VMState) (value : Int) : VMState :=
  { vm with output := vm.output ++ [.int value] }

/-- `VirtualMachine::printString`. -/
def printString (vm : VMState) (s : String) : VMState :=
  { vm with output := vm.output ++ [.str s] }

/-- `VirtualMachine::inputNumber` (a failed or exhausted `std::cin` parse
yields 0). -/
def inputNumber (vm : VMState) : Int × VMState :=
  match vm.input_ints with
  | [] => (0, vm)
  | some v :: rest => (v, { vm with input_ints := rest })
  | none :: rest => (0, { vm with input_ints := rest })

/-- `VirtualMachine::inputString`. -/
def inputString (vm : VMState) : String × VMState :=
  match vm.input_lines with
  | [] => ("", vm)
  | l :: rest => (l, { vm with input_lines := rest })

/-- `VirtualMachine::executeInstruction`. -/
def executeInstruction (vm : VMState) : VMState :=
  let (opcode_byte, vm) := readByte vm
  if opcode_byte = 0x01 then -- PUSH
    let (value, vm) := readInt32 vm
    push vm value
  else if opcode_byte = 0x02 then -- POP
    (pop vm).2
  else if opcode_byte = 0x03 then -- ADD
    let (b, vm) := pop vm
    let (a, vm) := pop vm
    push vm (wrap32 (a + b))
  else if opcode_byte = 0x04 then -- SUB
    let (b, vm) := pop vm
    let (a, vm) := pop vm
    push vm (wrap32 (a - b))
  else if opcode_byte = 0x05 then -- MUL
    let (b, vm) := pop vm
    let (a, vm) := pop vm
    push vm (wrap32 (a * b))
  else if opcode_byte = 0x06 then -- DIV
    let (b, vm) := pop vm
    let (a, vm) := pop vm
    if b = 0 then vmError vm "Division by zero"
    else push vm (a.tdiv b)
  else if opcode_byte = 0x07 then -- MOD
    let (b, vm) := pop vm
    let (a, vm) := pop vm
    if b = 0 then vmError vm "Modulo by zero"
    else push vm (a.tmod b)
  else if opcode_byte = 0x08 then -- DUP
    push vm (peekV vm)
  else if opcode_byte = 0x09 then -- SWAP
    if vm.stack.length < 2 then vmError vm "Stack underflow in SWAP"
    else
      let (a, vm) := pop vm
      let (b, vm) := pop vm
      push (push vm a) b
  else if opcode_byte = 0x0A then -- PRINT
    let (value, vm) := pop vm
    printValue vm value
  else if opcode_byte = 0x0B then -- PRINT_STR
    let (str_id, vm) := pop vm
    if 0 ≤ str_id ∧ str_id.toNat < vm.string_table.length then
      printString vm (vm.string_table.getD str_id.toNat "")
    else vmError vm "Invalid string ID"
  else if opcode_byte = 0x0D then -- INPUT
    let (value, vm) := inputNumber vm
    push vm value
  else if opcode_byte = 0x0C then -- INPUT_STR
    let (str, vm) := inputString vm
    let vm := { vm with string_table := vm.string_table ++ [str] }
    push vm ((vm.string_table.length : Int) - 1)
  else if opcode_byte = 0x26 then -- PUSH_STR
    let (str_id, vm) := readInt32 vm
    push vm str_id
  else if opcode_byte = 0x10 then -- JMP
    let (addr, vm) := readInt32 vm
    { vm with instruction_pointer := intToSizeT addr }
  else if opcode_byte = 0x11 then -- JZ
    let (addr, vm) := readInt32 vm
    let (value, vm) := pop vm
    if value = 0 then { vm with instruction_pointer := intToSizeT addr } else vm
  else if opcode_byte = 0x12 then -- JNZ
    let (addr, vm) := readInt32 vm
    let (value, vm) := pop vm
    if value ≠ 0 then { vm with instruction_pointer := intToSizeT addr } else vm
  else if opcode_byte = 0x17 then -- CMP
    let (b, vm) := pop vm
    let (a, vm) := pop vm
    { vm with cmp_flag := if a < b then -1 else if a > b then 1 else 0 }
  else if opcode_byte = 0x13 then -- JL
    let (addr, vm) := readInt32 vm
    if vm.cmp_flag < 0 then { vm with instruction_pointer := intToSizeT addr } else vm
  else if opcode_byte = 0x14 then -- JG
    let (addr, vm) := readInt32 vm
    if vm.cmp_flag > 0 then { vm with instruction_pointer := intToSizeT addr } else vm
  else if opcode_byte = 0x15 then -- JLE
    let (addr, vm) := readInt32 vm
    if vm.cmp_flag ≤ 0 then { vm with instruction_pointer := intToSizeT addr } else vm
  else if opcode_byte = 0x16 then -- JGE
    let (addr, vm) := readInt32 vm
    if vm.cmp_flag ≥ 0 then { vm with instruction_pointer := intToSizeT addr } else vm
  else if opcode_byte = 0x18 then -- CALL
    let (addr, vm) := readInt32 vm
    { vm with
      call_stack := vm.call_stack ++ [(vm.instruction_pointer, vm.base_pointer)]
      instruction_pointer := intToSizeT addr }
  else if opcode_byte = 0x19 then -- RET
    match vm.call_stack.getLast? with
    | none => vmError vm "Return without call"
    | some frame =>
      { vm with
        call_stack := vm.call_stack.dropLast
        instruction_pointer := frame.1
        base_pointer := frame.2 }
  else if opcode_byte = 0x24 then -- PUSH_BP
    let vm := push vm (wrap32 (vm.base_pointer : Int))
    { vm with base_pointer := vm.stack.length }
  else if opcode_byte = 0x25 then -- POP_BP
    -- restore BP from the saved location at stack[BP-1] (without popping)
    if vm.base_pointer = 0 ∨ vm.base_pointer > vm.stack.length then
      vmError vm "Invalid base pointer in POP_BP"
    else
      { vm with base_pointer := intToSizeT (vm.stack.getD (vm.base_pointer - 1) 0) }
  else if opcode_byte = 0x20 then -- LOAD
    let (addr, vm) := readInt32 vm
    let (value, vm) := loadMemory vm addr
    push vm value
  else if opcode_byte = 0x21 then -- STORE
    let (addr, vm) := pop vm
    let (value, vm) := pop vm
    storeMemory vm addr value
  else if opcode_byte = 0x22 then -- LOAD_BP
    let (offset, vm) := readInt32 vm
    let addr : Int := (vm.base_pointer : Int) + offset
    if addr < 0 ∨ addr ≥ (vm.stack.length : Int) then
      vmError vm "BP-relative load out of bounds"
    else push vm (vm.stack.getD addr.toNat 0)
  else if opcode_byte = 0x23 then -- STORE_BP
    let (offset, vm) := readInt32 vm
    let (value, vm) := pop vm
    let addr : Int := (vm.base_pointer : Int) + offset
    if addr < 0 then vmError vm "BP-relative store out of bounds (negative address)"
    else
      let stack :=
        if addr.toNat ≥ vm.stack.length then listResize vm.stack (addr.toNat + 1) 0
        else vm.stack
      { vm with stack := stack.set addr.toNat value }
  else if opcode_byte = 0x27 then -- LOAD_INDIRECT
    let (addr, vm) := pop vm
    let (value, vm) := loadMemory vm addr
    push vm value
  else if opcode_byte = 0x28 then -- STORE_INDIRECT
    let (addr, vm) := pop vm
    let (value, vm) := pop vm
    storeMemory vm addr value
  else if opcode_byte = 0x29 then -- ALLOC
    let (size, vm) := pop vm
    if size ≤ 0 then vmError vm "Invalid allocation size"
    else
      let (addr, vm) := allocateHeap vm size.toNat
      if addr < 0 then vmError vm "Heap allocation failed"
      else push vm addr
  else if opcode_byte = 0x2A then -- FREE
    let (addr, vm) := pop vm
    if addr < 0 then vmError vm "Invalid address for free"
    else freeHeap vm addr
  else if opcode_byte = 0x30 then -- FPUSH
    let (val, vm) := readFloat32 vm
    fpush vm val
  else if opcode_byte = 0x31 then -- FPOP
    (fpop vm).2
  else if opcode_byte = 0x32 then -- FADD
    let (b, vm) := fpop vm
    let (a, vm) := fpop vm
    fpush vm (a + b)
  else if opcode_byte = 0x33 then -- FSUB
    let (b, vm) := fpop vm
    let (a, vm) := fpop vm
    fpush vm (a - b)
  else if opcode_byte = 0x34 then -- FMUL
    let (b, vm) := fpop vm
    let (a, vm) := fpop vm
    fpush vm (a * b)
  else if opcode_byte = 0x35 then -- FDIV
    let (b, vm) := fpop vm
    let (a, vm) := fpop vm
    if b = 0 then vmError vm "FPU division by zero"
    else fpush vm (a / b)
  else if opcode_byte = 0x36 then -- FLOAD
    let (addr, vm) := readInt32 vm
    if addr < 0 then vmError vm "Negative FPU memory address"
    else if addr.toNat ≥ vm.float_memory.length then
      vmError vm "FPU memory access out of bounds"
    else fpush vm (vm.float_memory.getD addr.toNat 0)
  else if opcode_byte = 0x37 then -- FSTORE
    let (addr, vm) := readInt32 vm
    let (val, vm) := fpop vm
    if addr < 0 then vmError vm "Negative FPU memory address"
    else
      let fmem :=
        if addr.toNat ≥ vm.float_memory.length then
          listResize vm.float_memory (addr.toNat + 256) 0
        else vm.float_memory
      { vm with float_memory := fmem.set addr.toNat val }
  else if opcode_byte = 0x38 then -- FPRINT
    let (val, vm) := fpop vm
    { vm with output := vm.output ++ [.flt val] }
  else if opcode_byte = 0x39 then -- FCMP
    let (b, vm) := fpop vm
    let (a, vm) := fpop vm
    { vm with cmp_flag := if a < b then -1 else if a > b then 1 else 0 }
  else if opcode_byte = 0x3A then -- FNEG
    let (val, vm) := fpop vm
    fpush vm (-val)
  else if opcode_byte = 0x3B then -- FDUP
    fpush vm (fpeek vm)
  else if opcode_byte = 0x3C then -- INT_TO_FP
    let (ival, vm) := pop vm
    fpush vm (ival : ℚ)
  else if opcode_byte = 0x3D then -- FP_TO_INT
    let (fval, vm) := fpop vm
    push vm (truncQ fval)
  else if opcode_byte = 0xFF then -- HALT
    { vm with halted := true }
  else
    vmError vm ("Unknown opcode: 0x" ++ toString opcode_byte)

/-- `VirtualMachine::step`. -/
def step (vm : VMState) : VMState :=
  if vm.halted ∨ vm.error_flag then vm
  else if vm.instruction_pointer ≥ vm.bytecode.length then
    vmError vm "Instruction pointer out of bounds"
  else
    let vm := executeInstruction vm
    let vm := { vm with instruction_count := vm.instruction_count + 1 }
    if vm.stack.length > vm.max_stack_size then { vm with max_stack_size := vm.stack.length }
    else vm

/-- The `while (!halted && !error_flag) step();` loop of
`VirtualMachine::run`, bounded by a fuel (the C++ loop may not terminate). -/
def run : Nat → VMState → VMState
  | 0, vm => vm
  | fuel + 1, vm =>
    if ¬ vm.halted ∧ ¬ vm.error_flag then run fuel (step vm) else vm

/-- The effect of `VirtualMachine::loadFromFile` on the image written by
`CodeGenerator::saveToFile`: the string table and the code segment are
restored verbatim, then the machine is reset. -/
def loadImage (strings : List String) (code : List Nat) : VMState :=
  reset { vmNew with string_table := strings, bytecode := code }

/-- The compiler pipeline on a source string: tokenize, parse, generate.
The parser fuel bounds its recursion depth, unbounded in the C++. -/
def compileSource (src : String) : Except String CGState :=
  let (toks, _) := tokenize src
  (parseProgram toks ((toks.length + 1) * 64)).map generate

/-- Compile a source program, load the result into a fresh VM, run it for
`fuel` steps, and report (output events, halted flag, error flag). -/
def runResult (src : String) (fuel : Nat) : Option (List OutEvt × Bool × Bool) :=
  match compileSource src with
  | .error _ => none
  | .ok g =>
    let vm := run fuel (loadImage g.string_table g.bytecode)
    some (vm.output, vm.halted, vm.error_flag)

/-!
Concrete programs, machine states and auxiliary predicates used by the
claim analyses below.
-/

/-- The end-to-end example program of the spec (`add(2, 3)` printed
through `std::cout`). -/
def c2src : String :=
  "int add(int a,int b){ return a+b; } int main(){ std::cout<<add(2,3); return 0; }"

/-- The token stream the lexer produces for `c2src` (the equality is
established in the proof of the claim below). -/
def c2toks : List Token :=
 [⟨.TYPE_SPECIFIER, "int", 1, 1⟩, ⟨.IDENTIFIER, "add", 1, 5⟩, ⟨.LEFT_PAREN, "(", 1, 8⟩,
  ⟨.TYPE_SPECIFIER, "int", 1, 9⟩, ⟨.IDENTIFIER, "a", 1, 13⟩, ⟨.COMMA, ",", 1, 14⟩,
  ⟨.TYPE_SPECIFIER, "int", 1, 15⟩, ⟨.IDENTIFIER, "b", 1, 19⟩, ⟨.RIGHT_PAREN, ")", 1, 20⟩,
  ⟨.LEFT_BRACE, "\x7b", 1, 21⟩, ⟨.KEYWORD, "return", 1, 23⟩, ⟨.IDENTIFIER, "a", 1, 30⟩,
  ⟨.OPERATOR, "+", 1, 31⟩, ⟨.IDENTIFIER, "b", 1, 32⟩, ⟨.SEMICOLON, ";", 1, 33⟩,
  ⟨.RIGHT_BRACE, "\x7d", 1, 35⟩, ⟨.TYPE_SPECIFIER, "int", 1, 37⟩, ⟨.IDENTIFIER, "main", 1, 41⟩,
  ⟨.LEFT_PAREN, "(", 1, 45⟩, ⟨.RIGHT_PAREN, ")", 1, 46⟩, ⟨.LEFT_BRACE, "\x7b", 1, 47⟩,
  ⟨.IDENTIFIER, "std", 1, 49⟩, ⟨.SCOPE_RESOLUTION, "::", 1, 52⟩, ⟨.IDENTIFIER, "cout", 1, 54⟩,
  ⟨.LEFT_SHIFT, "<<", 1, 58⟩, ⟨.IDENTIFIER, "add", 1, 60⟩, ⟨.LEFT_PAREN, "(", 1, 63⟩,
  ⟨.NUMBER, "2", 1, 64⟩, ⟨.COMMA, ",", 1, 65⟩, ⟨.NUMBER, "3", 1, 66⟩,
  ⟨.RIGHT_PAREN, ")", 1, 67⟩, ⟨.SEMICOLON, ";", 1, 68⟩, ⟨.KEYWORD, "return", 1, 70⟩,
  ⟨.NUMBER, "0", 1, 77⟩, ⟨.SEMICOLON, ";", 1, 78⟩, ⟨.RIGHT_BRACE, "\x7d", 1, 80⟩,
  ⟨.END_OF_FILE, "", 1, 81⟩]

/-- The bytecode the generator produces for `c2src` (entry `CALL main`,
`HALT`, then `add_P2` at 6 and `main` at 22; the equality is established
in the proof of the claim below). -/
def c2bytes : List Nat :=
 [24, 22, 0, 0, 0, 255, 36, 34, 253, 255, 255, 255, 34, 254, 255, 255, 255, 3, 37, 25, 37, 25,
  36, 1, 2, 0, 0, 0, 1, 3, 0, 0, 0, 24, 6, 0, 0, 0, 9, 2, 9, 2, 10,
  1, 0, 0, 0, 0, 2, 1, 0, 0, 0, 0, 37, 25, 37, 25]

deriving instance DecidableEq for Except

/-- A bytecode image exercising parameter addressing with the offset
formula of the claim: `PUSH 42`, `CALL 11`, `HALT`, and at 11 the callee
prologue `PUSH_BP` followed by `LOAD_BP -1` (the claimed offset
`-(n-i+1)` for `n = i = 1`) and `HALT`. -/
def c1cexBytes : List Nat := [1, 42, 0, 0, 0, 24, 11, 0, 0, 0, 255, 36, 34, 255, 255, 255, 255, 255]

/-- A callee state right after the `PUSH_BP` prologue: arguments 7 and 9
and the saved base pointer on the stack, `BP = 3`, about to execute
`LOAD_BP -3`. -/
def c1wVM : VMState :=
  { vmNew with stack := [7, 9, 0], base_pointer := 3, bytecode := [34, 253, 255, 255, 255] }

/-- Two heap blocks are compatible unless both are allocated and their
half-open cell ranges intersect. -/
def blocksDisjointB (a b : HeapBlock) : Bool :=
  !(a.allocated && b.allocated && a.start < b.start + b.size && b.start < a.start + a.size)

/-- Check a binary predicate on all unordered pairs of a list. -/
def pairwiseB {α : Type} (p : α → α → Bool) : List α → Bool
  | [] => true
  | x :: xs => xs.all (p x) && pairwiseB p xs

/-- The per-cell half of the heap invariant claimed by the spec: no cell
belongs to two allocated blocks. -/
def heapBlocksConsistentB (bs : List HeapBlock) : Bool := pairwiseB blocksDisjointB bs

/-- An `ALLOC`/`FREE` sequence: alloc 10, alloc 5, free the first block
(address 10000), alloc 3, alloc 8 (each returned address is popped). -/
def c3prog : List Nat :=
  [1, 10, 0, 0, 0, 41, 2, 1, 5, 0, 0, 0, 41, 2, 1, 16, 39, 0, 0, 42,
   1, 3, 0, 0, 0, 41, 2, 1, 8, 0, 0, 0, 41, 2, 255]

/-- A minimal execution that allocates one heap block: `PUSH 4`, `ALLOC`,
`HALT`. -/
def c4prog : List Nat := [1, 4, 0, 0, 0, 41, 255]

/-- The string-table section of the image written by
`CodeGenerator::saveToFile`: each table entry serialized once, in
order. -/
def stringTableBytes : List String → List Nat
  | [] => []
  | s :: rest => u32BytesLE s.length ++ strBytes s ++ stringTableBytes rest

/-- The `print` argument loop as the amended C6 claim words it: each
argument is evaluated, then printed with `FPRINT` when it is a float
expression and with `PRINT` otherwise (never `PRINT_STR`); to be
compared with `genPrintArgs` from the source. -/
def printArgsSpec : List AST → CGState → CGState
  | [], g => g
  | arg :: rest, g =>
    let g1 := genExpression arg g
    let op : Opcode := if isFloatExpr g1 arg then .FPRINT else .PRINT
    printArgsSpec rest (emit g1 op)

/-- The `println` argument loop as the amended C6 claim words it: each
argument is evaluated, then printed with `PRINT_STR` when it is a string
literal, `FPRINT` when it is a float expression and `PRINT` otherwise;
to be compared with `genPrintlnArgs` from the source. -/
def printlnArgsSpec : List AST → CGState → CGState
  | [], g => g
  | arg :: rest, g =>
    let g1 := genExpression arg g
    let op : Opcode :=
      match arg with
      | .lit v lt ln c =>
        if lt = TokenType.STRING then .PRINT_STR
        else if isFloatExpr g1 (.lit v lt ln c) then .FPRINT else .PRINT
      | _ => if isFloatExpr g1 arg then .FPRINT else .PRINT
    printlnArgsSpec rest (emit g1 op)

/-- A generator state with one float variable `f`, used to exercise the
`FPRINT` branch of the print builtins. -/
def c6wG : CGState :=
  { CGState.init with symbols := [("f", { type := .VARIABLE, offset := 3, is_float := true })] }

/-- An FPU state about to run `FDIV` with divisor 0 on top. -/
def c10wErr : VMState := { vmNew with bytecode := [53], fpu_regs := [0, 2, 0, 0, 0, 0, 0, 0] }

/-- An FPU state about to run `FDIV` computing `6 / 2`. -/
def c10wOk : VMState := { vmNew with bytecode := [53], fpu_regs := [2, 6, 0, 0, 0, 0, 0, 0] }

/-- A state about to run `CMP` on operands 5 and 3. -/
def c5wCmp : VMState := { vmNew with bytecode := [23], stack := [5, 3] }

/-- A state about to run `JL 7` with a negative comparison flag. -/
def c5wJLt : VMState := { vmNew with bytecode := [19, 7, 0, 0, 0], cmp_flag := -1 }

/-- A state about to run `JL 7` with a positive comparison flag. -/
def c5wJLn : VMState := { vmNew with bytecode := [19, 7, 0, 0, 0], cmp_flag := 1 }

/-- A state about to run `JG 9` with a positive comparison flag. -/
def c5wJG : VMState := { vmNew with bytecode := [20, 9, 0, 0, 0], cmp_flag := 1 }

/-- A state about to run `JLE 11` with a zero comparison flag. -/
def c5wJLE : VMState := { vmNew with bytecode := [21, 11, 0, 0, 0], cmp_flag := 0 }

/-- A state about to run `JGE 13` with a zero comparison flag. -/
def c5wJGE : VMState := { vmNew with bytecode := [22, 13, 0, 0, 0], cmp_flag := 0 }

/-!
Theorems.  General-purpose lemmas about the embedded definitions come
first; then one theorem per specification claim (C1 to C10), each with
its witness and counterexample where applicable.
-/

@[simp] theorem LexState.advance_source (s : LexState) :
    s.advance.source = s.source := by
  unfold LexState.advance; split <;> rfl

@[simp] theorem LexState.advance_position (s : LexState) :
    s.advance.position = if s.position < s.source.length then s.position + 1 else s.position := by
  unfold LexState.advance; split <;> rfl

/-- The dispatch arm of `genExpression` for calls is exactly `genCall`. -/
theorem genExpression_callExpr (callee : AST) (args : List AST) (ln c : Nat) (g : CGState) :
    genExpression (.callExpr callee args ln c) g = genCall (.callExpr callee args ln c) g := by
  cases callee <;> rfl

/-- The dispatch arm of `genStatement` for function declarations is
exactly `genFunctionDecl`. -/
theorem genStatement_funcDecl (rt : List String) (fn : String)
    (ps : List (List String × String)) (b : Option AST) (ic : Bool) (ln c : Nat)
    (g : CGState) :
    genStatement (.funcDecl rt fn ps b ic ln c) g =
      genFunctionDecl (.funcDecl rt fn ps b ic ln c) g := rfl

/-- The dispatch arm of `genExpression` for literals is exactly
`genLiteral`. -/
theorem genExpression_lit (v : String) (lt : TokenType) (ln c : Nat) (g : CGState) :
    genExpression (.lit v lt ln c) g = genLiteral g (.lit v lt ln c) := rfl

theorem dropCons_lt {l : List Nat} {n a : Nat} {t : List Nat}
    (h : l.drop n = a :: t) : n < l.length := by
  by_contra hn
  push_neg at hn
  rw [List.drop_eq_nil_of_le hn] at h
  exact List.noConfusion h

theorem dropCons_getD {l : List Nat} {n a : Nat} {t : List Nat}
    (h : l.drop n = a :: t) : l.getD n 0 = a := by
  have h1 : l[n + 0]? = some a := by
    rw [← List.getElem?_drop, h]
    exact List.getElem?_cons_zero
  simp only [Nat.add_zero] at h1
  simp [List.getD_eq_getElem?_getD, h1]

theorem dropCons_succ {l : List Nat} {n a : Nat} {t : List Nat}
    (h : l.drop n = a :: t) : l.drop (n + 1) = t := by
  have h1 : (l.drop n).drop 1 = t := by rw [h]; rfl
  rwa [List.drop_drop] at h1

/-- `VirtualMachine::readByte` when the byte under the instruction
pointer is known. -/
theorem readByte_drop (vm : VMState) {b : Nat} {t : List Nat}
    (h : vm.bytecode.drop vm.instruction_pointer = b :: t) :
    readByte vm = (b, { vm with instruction_pointer := vm.instruction_pointer + 1 }) := by
  have hlt := dropCons_lt h
  unfold readByte
  rw [if_neg (by omega), dropCons_getD h]

/-- `VirtualMachine::readInt32` when the four operand bytes are known. -/
theorem readInt32_drop (vm : VMState) {b0 b1 b2 b3 : Nat} {t : List Nat}
    (h : vm.bytecode.drop vm.instruction_pointer = b0 :: b1 :: b2 :: b3 :: t) :
    readInt32 vm = (int32OfBytes b0 b1 b2 b3,
      { vm with instruction_pointer := vm.instruction_pointer + 4 }) := by
  have h1 := dropCons_succ h
  have h2 := dropCons_succ h1
  have h3 := dropCons_succ h2
  have hlt := dropCons_lt h3
  unfold readInt32
  rw [if_neg (by omega)]
  rw [dropCons_getD h, dropCons_getD h1, dropCons_getD h2, dropCons_getD h3]

/-- `VirtualMachine::pop` on a non-empty stack. -/
theorem pop_concat (vm : VMState) {l : List Int} {x : Int} (h : vm.stack = l ++ [x]) :
    pop vm = (x, { vm with stack := l }) := by
  unfold pop
  rw [h, List.getLast?_concat, List.dropLast_concat]

theorem getD_middle (pre args : List Int) (bpv : Int) (k : Nat) (hk : k < args.length) :
    (pre ++ args ++ [bpv]).getD (pre.length + k) 0 = args.getD k 0 := by
  rw [List.append_assoc]
  have h1 : (pre ++ (args ++ [bpv]))[pre.length + k]? = (args ++ [bpv])[k]? := by
    rw [List.getElem?_append_right (by omega)]
    congr 1
    omega
  have h2 : (args ++ [bpv])[k]? = args[k]? := by
    rw [List.getElem?_append]
    rw [if_pos hk]
  simp [List.getD_eq_getElem?_getD, h1, h2]

/-- `CodeGenerator::addString` never touches the code buffer. -/
theorem addString_snd_bytecode (g : CGState) (s : String) :
    (addString g s).2.bytecode = g.bytecode := by
  unfold addString
  cases g.string_table.findIdx? (fun x => x = s) <;> rfl

/-- The index returned by `CodeGenerator::addString` depends only on the
string table. -/
theorem addString_fst_congr (g1 g2 : CGState) (h : g1.string_table = g2.string_table)
    (s : String) : (addString g1 s).1 = (addString g2 s).1 := by
  unfold addString
  rw [h]
  cases g2.string_table.findIdx? (fun x => x = s) <;> rfl

theorem addString_bytecode_fst (g : CGState) (bc : List Nat) (s : String) :
    (addString { g with bytecode := bc } s).1 = (addString g s).1 :=
  addString_fst_congr { g with bytecode := bc } g rfl s

/-- `CodeGenerator::genLiteral` on a string literal: intern the string
and push its index with `PUSH_STR`. -/
theorem genLiteral_string (g : CGState) (s : String) (ln c : Nat) :
    genLiteral g (.lit s .STRING ln c) =
      emitInt32 (emit (addString g s).2 .PUSH_STR) (addString g s).1 := by
  unfold genLiteral
  simp

theorem findIdx_append_some {α : Type} (p : α → Bool) (l l2 : List α) (i : Nat)
    (h : l.findIdx? p = some i) : (l ++ l2).findIdx? p = some i := by
  rw [List.findIdx?_append, h]
  rfl

theorem findIdx_append_self (l : List String) (s : String)
    (h : l.findIdx? (fun x => x = s) = none) :
    (l ++ [s]).findIdx? (fun x => x = s) = some l.length := by
  rw [List.findIdx?_append, h]
  simp

theorem findIdx_none_not_mem (l : List String) (s : String)
    (h : l.findIdx? (fun x => x = s) = none) : s ∉ l := by
  intro hin
  have := List.findIdx?_eq_none_iff.mp h s hin
  simp at this

/-- The argument loop of the `print` builtin emits exactly what the
amended C6 claim describes. -/
theorem genPrintArgs_eq_spec (args : List AST) : ∀ g : CGState,
    genPrintArgs args g = printArgsSpec args g := by
  induction args with
  | nil => intro g; rfl
  | cons arg rest ih =>
    intro g
    simp only [genPrintArgs, printArgsSpec]
    generalize genExpression arg g = g1
    rw [apply_ite (emit g1)]
    exact ih _

/-- The argument loop of the `println` builtin emits exactly what the
amended C6 claim describes. -/
theorem genPrintlnArgs_eq_spec (args : List AST) : ∀ g : CGState,
    genPrintlnArgs args g = printlnArgsSpec args g := by
  induction args with
  | nil => intro g; rfl
  | cons arg rest ih =>
    intro g
    simp only [genPrintlnArgs, printlnArgsSpec]
    generalize genExpression arg g = g1
    cases arg <;> (repeat rw [apply_ite (emit g1)]) <;> exact ih _

/-- The string-table fold of `CodeGenerator::saveToFile` serializes the
table entries in order after the accumulator. -/
theorem foldl_strtab (l : List String) (acc : List Nat) :
    l.foldl (fun acc s => acc ++ u32BytesLE s.length ++ strBytes s) acc =
      acc ++ stringTableBytes l := by
  induction l generalizing acc with
  | nil => simp [stringTableBytes]
  | cons s rest ih =>
    rw [List.foldl_cons, ih]
    simp [stringTableBytes]

/-- `CMP` pops `b` then `a`, records `sign (a - b)` in the comparison
flag and does not branch. -/
theorem cmp_step (vm : VMState) (t : List Nat) (init : List Int) (a b : Int)
    (hbc : vm.bytecode.drop vm.instruction_pointer = Opcode.CMP.toByte :: t)
    (hs : vm.stack = init ++ [a, b]) :
    executeInstruction vm =
      { vm with instruction_pointer := vm.instruction_pointer + 1,
                stack := init, cmp_flag := (a - b).sign } := by
  have e1 : pop { vm with instruction_pointer := vm.instruction_pointer + 1 } =
      (b, { vm with instruction_pointer := vm.instruction_pointer + 1,
                    stack := init ++ [a] }) := by
    refine pop_concat _ ?_
    show vm.stack = (init ++ [a]) ++ [b]
    rw [hs]
    simp
  have e2 : pop { vm with instruction_pointer := vm.instruction_pointer + 1,
                          stack := init ++ [a] } =
      (a, { vm with instruction_pointer := vm.instruction_pointer + 1,
                    stack := init }) := pop_concat _ rfl
  have hsgn : (if a < b then (-1 : Int) else if a > b then 1 else 0) = (a - b).sign := by
    rcases lt_trichotomy a b with h | h | h
    · rw [if_pos h, Int.sign_eq_neg_one_of_neg (by omega)]
    · subst h
      simp
    · rw [if_neg (by omega), if_pos h, Int.sign_eq_one_of_pos (by omega)]
  unfold executeInstruction
  rw [readByte_drop vm hbc]
  simp [Opcode.toByte, e1, e2, hsgn]

/-- `JL` jumps to its operand exactly when the comparison flag is
negative; the stack is untouched. -/
theorem jl_step (vm : VMState) (b0 b1 b2 b3 : Nat) (t : List Nat)
    (hbc : vm.bytecode.drop vm.instruction_pointer =
      Opcode.JL.toByte :: b0 :: b1 :: b2 :: b3 :: t) :
    executeInstruction vm =
      if vm.cmp_flag < 0 then
        { vm with instruction_pointer := intToSizeT (int32OfBytes b0 b1 b2 b3) }
      else { vm with instruction_pointer := vm.instruction_pointer + 5 } := by
  have e1 : readInt32 { vm with instruction_pointer := vm.instruction_pointer + 1 } =
      (int32OfBytes b0 b1 b2 b3,
        { vm with instruction_pointer := vm.instruction_pointer + 1 + 4 }) :=
    readInt32_drop _ (dropCons_succ hbc)
  have hip : vm.instruction_pointer + 1 + 4 = vm.instruction_pointer + 5 := by omega
  unfold executeInstruction
  rw [readByte_drop vm hbc]
  simp only [Opcode.toByte]
  simp [e1, hip]

/-- `JG` jumps to its operand exactly when the comparison flag is
positive. -/
theorem jg_step (vm : VMState) (b0 b1 b2 b3 : Nat) (t : List Nat)
    (hbc : vm.bytecode.drop vm.instruction_pointer =
      Opcode.JG.toByte :: b0 :: b1 :: b2 :: b3 :: t) :
    executeInstruction vm =
      if vm.cmp_flag > 0 then
        { vm with instruction_pointer := intToSizeT (int32OfBytes b0 b1 b2 b3) }
      else { vm with instruction_pointer := vm.instruction_pointer + 5 } := by
  have e1 : readInt32 { vm with instruction_pointer := vm.instruction_pointer + 1 } =
      (int32OfBytes b0 b1 b2 b3,
        { vm with instruction_pointer := vm.instruction_pointer + 1 + 4 }) :=
    readInt32_drop _ (dropCons_succ hbc)
  have hip : vm.instruction_pointer + 1 + 4 = vm.instruction_pointer + 5 := by omega
  unfold executeInstruction
  rw [readByte_drop vm hbc]
  simp only [Opcode.toByte]
  simp [e1, hip]

/-- `JLE` jumps to its operand exactly when the comparison flag is
non-positive. -/
theorem jle_step (vm : VMState) (b0 b1 b2 b3 : Nat) (t : List Nat)
    (hbc : vm.bytecode.drop vm.instruction_pointer =
      Opcode.JLE.toByte :: b0 :: b1 :: b2 :: b3 :: t) :
    executeInstruction vm =
      if vm.cmp_flag ≤ 0 then
        { vm with instruction_pointer := intToSizeT (int32OfBytes b0 b1 b2 b3) }
      else { vm with instruction_pointer := vm.instruction_pointer + 5 } := by
  have e1 : readInt32 { vm with instruction_pointer := vm.instruction_pointer + 1 } =
      (int32OfBytes b0 b1 b2 b3,
        { vm with instruction_pointer := vm.instruction_pointer + 1 + 4 }) :=
    readInt32_drop _ (dropCons_succ hbc)
  have hip : vm.instruction_pointer + 1 + 4 = vm.instruction_pointer + 5 := by omega
  unfold executeInstruction
  rw [readByte_drop vm hbc]
  simp only [Opcode.toByte]
  simp [e1, hip]

/-- `JGE` jumps to its operand exactly when the comparison flag is
non-negative. -/
theorem jge_step (vm : VMState) (b0 b1 b2 b3 : Nat) (t : List Nat)
    (hbc : vm.bytecode.drop vm.instruction_pointer =
      Opcode.JGE.toByte :: b0 :: b1 :: b2 :: b3 :: t) :
    executeInstruction vm =
      if vm.cmp_flag ≥ 0 then
        { vm with instruction_pointer := intToSizeT (int32OfBytes b0 b1 b2 b3) }
      else { vm with instruction_pointer := vm.instruction_pointer + 5 } := by
  have e1 : readInt32 { vm with instruction_pointer := vm.instruction_pointer + 1 } =
      (int32OfBytes b0 b1 b2 b3,
        { vm with instruction_pointer := vm.instruction_pointer + 1 + 4 }) :=
    readInt32_drop _ (dropCons_succ hbc)
  have hip : vm.instruction_pointer + 1 + 4 = vm.instruction_pointer + 5 := by omega
  unfold executeInstruction
  rw [readByte_drop vm hbc]
  simp only [Opcode.toByte]
  simp [e1, hip]

/-- C1 (amended): inside a callee of `n ≥ 1` parameters, after the
`PUSH_BP` prologue (arguments `v_1..v_n` below the saved base pointer and
`BP` at the top of the stack), executing `LOAD_BP` with offset
`-(n-i+2)` — not `-(n-i+1)` as claimed — pushes `v_i`, for every
`i ∈ 1..n`. -/
theorem claim1_param_offset (vm : VMState) (pre args : List Int) (bpv : Int)
    (i : Nat) (b0 b1 b2 b3 : Nat) (t : List Nat)
    (h1 : 1 ≤ i) (h2 : i ≤ args.length)
    (hs : vm.stack = pre ++ args ++ [bpv])
    (hbp : vm.base_pointer = vm.stack.length)
    (hbc : vm.bytecode.drop vm.instruction_pointer =
      Opcode.LOAD_BP.toByte :: b0 :: b1 :: b2 :: b3 :: t)
    (hoff : int32OfBytes b0 b1 b2 b3 = -((args.length : Int) - i + 2)) :
    executeInstruction vm =
      { vm with instruction_pointer := vm.instruction_pointer + 5,
                stack := vm.stack ++ [args.getD (i - 1) 0] } := by
  have e1 : readInt32 { vm with instruction_pointer := vm.instruction_pointer + 1 } =
      (int32OfBytes b0 b1 b2 b3,
        { vm with instruction_pointer := vm.instruction_pointer + 1 + 4 }) :=
    readInt32_drop _ (dropCons_succ hbc)
  have hip : vm.instruction_pointer + 1 + 4 = vm.instruction_pointer + 5 := by omega
  have hlen : vm.stack.length = pre.length + args.length + 1 := by
    rw [hs]
    simp
    omega
  have hneg : ¬((vm.base_pointer : Int) + int32OfBytes b0 b1 b2 b3 < 0 ∨
      (vm.base_pointer : Int) + int32OfBytes b0 b1 b2 b3 ≥ (vm.stack.length : Int)) := by
    rw [hoff, hbp, hlen]
    push_cast
    omega
  have htoNat : ((vm.base_pointer : Int) + int32OfBytes b0 b1 b2 b3).toNat =
      pre.length + (i - 1) := by
    rw [hoff, hbp, hlen]
    omega
  have hgetD : vm.stack.getD (pre.length + (i - 1)) 0 = args.getD (i - 1) 0 := by
    rw [hs]
    exact getD_middle pre args bpv (i - 1) (by omega)
  unfold executeInstruction
  rw [readByte_drop vm hbc]
  simp only [Opcode.toByte]
  simp [e1, hneg, htoNat, push, hip]
  simpa [List.getD_eq_getElem?_getD] using hgetD

/-- Witness for C1: with arguments 7 and 9 and `BP = 3`, `LOAD_BP -3`
(`n = 2`, `i = 1`, offset `-(2-1+2)`) pushes the first argument 7. -/
theorem claim1_witness :
    (executeInstruction c1wVM).stack = [7, 9, 0, 7] ∧
    (executeInstruction c1wVM).instruction_pointer = 5 ∧
    (executeInstruction c1wVM).error_flag = false := by
  have h := claim1_param_offset c1wVM [] [7, 9] 0 1 253 255 255 255 []
    (by decide) (by decide) rfl rfl rfl (by decide)
  rw [h]
  exact ⟨rfl, rfl, rfl⟩

/-- Counterexample to C1 as stated: running `c1cexBytes` (one argument
`v_1 = 42`, so `n = i = 1` and the claimed offset is `-(1-1+1) = -1`),
the `LOAD_BP -1` after the prologue pushes the saved base pointer 0, not
`v_1 = 42`. -/
theorem claim1_counterexample :
    (run 10 (loadImage [] c1cexBytes)).halted = true ∧
    (run 10 (loadImage [] c1cexBytes)).error_flag = false ∧
    peekV (run 10 (loadImage [] c1cexBytes)) = 0 ∧ (0 : Int) ≠ 42 := by decide!

set_option maxRecDepth 10000 in
/-- Stage 1 of the C2 pipeline: the lexer turns `c2src` into `c2toks`. -/
theorem c2_tokens : tokenize c2src = (c2toks, ⟨c2src.toList, 80, 1, 81, false⟩) := by decide!

set_option maxRecDepth 10000 in
set_option maxHeartbeats 8000000 in
/-- Stage 2 of the C2 pipeline: parsing `c2toks` (with the fuel
`compileSource` uses for 37 tokens) and generating code yields the
bytecode `c2bytes` and an empty string table. -/
theorem c2_parse_gen : ((parseProgram c2toks 2432).map generate).map
    (fun g => (g.bytecode, g.string_table)) = .ok (c2bytes, ([] : List String)) := by decide!

set_option maxRecDepth 10000 in
set_option maxHeartbeats 8000000 in
/-- Stage 3 of the C2 pipeline: running `c2bytes` on a fresh VM prints
the integer 5 and halts with no error. -/
theorem c2_run : ((run 100 (loadImage [] c2bytes)).output,
    (run 100 (loadImage [] c2bytes)).halted,
    (run 100 (loadImage [] c2bytes)).error_flag) = ([OutEvt.int 5], true, false) := by decide!

set_option maxRecDepth 10000 in
/-- C2: compiling `c2src` (`int add(int a,int b){ return a+b; } int
main(){ std::cout<<add(2,3); return 0; }`) and running the bytecode on
the VM writes exactly the integer 5 to standard output and halts with no
error. -/
theorem claim2_add_program :
    runResult c2src 100 = some ([OutEvt.int 5], true, false) := by
  have h1 := c2_tokens
  have h2 := c2_parse_gen
  have h3 := c2_run
  have hlen : c2toks.length = 37 := by decide
  have hcs : compileSource c2src = (parseProgram c2toks 2432).map generate := by
    unfold compileSource
    rw [h1]
    show (parseProgram c2toks ((c2toks.length + 1) * 64)).map generate = _
    rw [hlen]
  cases hp : (parseProgram c2toks 2432).map generate with
  | error e =>
    rw [hp] at h2
    simp [Except.map] at h2
  | ok g =>
    rw [hp] at h2
    simp only [Except.map, Except.ok.injEq, Prod.mk.injEq] at h2
    obtain ⟨hb, hst⟩ := h2
    unfold runResult
    rw [hcs, hp]
    show some ((run 100 (loadImage g.string_table g.bytecode)).output,
      (run 100 (loadImage g.string_table g.bytecode)).halted,
      (run 100 (loadImage g.string_table g.bytecode)).error_flag) = _
    rw [hst, hb]
    rw [h3]

/-- C3: the heap invariant claimed by the spec fails in the code.  After
the `ALLOC`/`FREE` sequence of `c3prog` (alloc 10, alloc 5, free the
first block, alloc 3, alloc 8) the block list holds the two allocated
blocks `[10, 15)` and `[10, 18)`, which overlap: `allocateHeap` appends
a split remainder at the end of the vector and later computes the
fresh-block start from the *last vector entry*, re-allocating cells of a
live block. -/
theorem claim3_heap_overlap :
    (run 20 (loadImage [] c3prog)).heap_blocks =
      [⟨0, 3, true⟩, ⟨10, 5, true⟩, ⟨3, 7, false⟩, ⟨10, 8, true⟩] ∧
    heapBlocksConsistentB (run 20 (loadImage [] c3prog)).heap_blocks = false ∧
    (run 20 (loadImage [] c3prog)).halted = true ∧
    (run 20 (loadImage [] c3prog)).error_flag = false := by decide!

/-- C4 (amended): `reset` restores the execution state (instruction
pointer, flags, stacks, objects, counters, FPU registers) and zeroes
`memory` and `float_memory` in place, but preserves the loaded bytecode,
the string table, *and also the heap contents and the heap block list*,
which the claim said were restored. -/
theorem claim4_reset_frame (vm : VMState) :
    (reset vm).bytecode = vm.bytecode ∧
    (reset vm).string_table = vm.string_table ∧
    (reset vm).heap = vm.heap ∧
    (reset vm).heap_blocks = vm.heap_blocks ∧
    (reset vm).heap_start_addr = vm.heap_start_addr ∧
    (reset vm).input_ints = vm.input_ints ∧
    (reset vm).input_lines = vm.input_lines ∧
    (reset vm).output = vm.output ∧
    (reset vm).instruction_pointer = 0 ∧
    (reset vm).halted = false ∧
    (reset vm).error_flag = false ∧
    (reset vm).error_message = "" ∧
    (reset vm).stack = [] ∧
    (reset vm).call_stack = [] ∧
    (reset vm).objects = [] ∧
    (reset vm).base_pointer = 0 ∧
    (reset vm).next_object_id = 1 ∧
    (reset vm).cmp_flag = 0 ∧
    (reset vm).instruction_count = 0 ∧
    (reset vm).max_stack_size = 0 ∧
    (reset vm).fpu_top = 0 ∧
    (reset vm).fpu_regs = List.replicate 8 0 ∧
    (reset vm).memory = vm.memory.map (fun _ => 0) ∧
    (reset vm).float_memory = vm.float_memory.map (fun _ => 0) :=
  ⟨rfl, rfl, rfl, rfl, rfl, rfl, rfl, rfl, rfl, rfl, rfl, rfl,
   rfl, rfl, rfl, rfl, rfl, rfl, rfl, rfl, rfl, rfl, rfl, rfl⟩

/-- Counterexample to C4 as stated: after running `c4prog` (which
allocates one heap block) and calling `reset`, the heap block list still
holds the allocated block, so it does not equal its zero-initialized
value `[]`. -/
theorem claim4_counterexample :
    (reset (run 10 (loadImage [] c4prog))).heap_blocks = [⟨0, 4, true⟩] ∧
    vmNew.heap_blocks = [] ∧
    ([⟨0, 4, true⟩] : List HeapBlock) ≠ [] := by decide!

/-- C5: `CMP` pops `b` then `a`, sets the comparison flag to
`sign (a - b)` and does not branch; a subsequent `JL`, `JG`, `JLE` or
`JGE` jumps to its operand address exactly when the flag is negative,
positive, non-positive or non-negative respectively, reading only the
flag and popping nothing. -/
theorem claim5_cmp_jumps :
    (∀ (vm : VMState) (t : List Nat) (init : List Int) (a b : Int),
      vm.bytecode.drop vm.instruction_pointer = Opcode.CMP.toByte :: t →
      vm.stack = init ++ [a, b] →
      executeInstruction vm =
        { vm with instruction_pointer := vm.instruction_pointer + 1,
                  stack := init, cmp_flag := (a - b).sign }) ∧
    (∀ (vm : VMState) (b0 b1 b2 b3 : Nat) (t : List Nat),
      vm.bytecode.drop vm.instruction_pointer =
        Opcode.JL.toByte :: b0 :: b1 :: b2 :: b3 :: t →
      executeInstruction vm =
        if vm.cmp_flag < 0 then
          { vm with instruction_pointer := intToSizeT (int32OfBytes b0 b1 b2 b3) }
        else { vm with instruction_pointer := vm.instruction_pointer + 5 }) ∧
    (∀ (vm : VMState) (b0 b1 b2 b3 : Nat) (t : List Nat),
      vm.bytecode.drop vm.instruction_pointer =
        Opcode.JG.toByte :: b0 :: b1 :: b2 :: b3 :: t →
      executeInstruction vm =
        if vm.cmp_flag > 0 then
          { vm with instruction_pointer := intToSizeT (int32OfBytes b0 b1 b2 b3) }
        else { vm with instruction_pointer := vm.instruction_pointer + 5 }) ∧
    (∀ (vm : VMState) (b0 b1 b2 b3 : Nat) (t : List Nat),
      vm.bytecode.drop vm.instruction_pointer =
        Opcode.JLE.toByte :: b0 :: b1 :: b2 :: b3 :: t →
      executeInstruction vm =
        if vm.cmp_flag ≤ 0 then
          { vm with instruction_pointer := intToSizeT (int32OfBytes b0 b1 b2 b3) }
        else { vm with instruction_pointer := vm.instruction_pointer + 5 }) ∧
    (∀ (vm : VMState) (b0 b1 b2 b3 : Nat) (t : List Nat),
      vm.bytecode.drop vm.instruction_pointer =
        Opcode.JGE.toByte :: b0 :: b1 :: b2 :: b3 :: t →
      executeInstruction vm =
        if vm.cmp_flag ≥ 0 then
          { vm with instruction_pointer := intToSizeT (int32OfBytes b0 b1 b2 b3) }
        else { vm with instruction_pointer := vm.instruction_pointer + 5 }) :=
  ⟨cmp_step, jl_step, jg_step, jle_step, jge_step⟩

/-- Witness for C5: `CMP` on 5 and 3 clears the stack and sets flag 1 at
the next instruction; `JL 7` branches on flag `-1` and falls through on
flag `1`; `JG 9`, `JLE 11` and `JGE 13` branch on their flags. -/
theorem claim5_witness :
    (executeInstruction c5wCmp).cmp_flag = 1 ∧
    (executeInstruction c5wCmp).stack = [] ∧
    (executeInstruction c5wCmp).instruction_pointer = 1 ∧
    (executeInstruction c5wJLt).instruction_pointer = 7 ∧
    (executeInstruction c5wJLn).instruction_pointer = 5 ∧
    (executeInstruction c5wJG).instruction_pointer = 9 ∧
    (executeInstruction c5wJLE).instruction_pointer = 11 ∧
    (executeInstruction c5wJGE).instruction_pointer = 13 := by
  have h1 := claim5_cmp_jumps.1 c5wCmp [] [] 5 3 rfl rfl
  have h2 := claim5_cmp_jumps.2.1 c5wJLt 7 0 0 0 [] rfl
  have h3 := claim5_cmp_jumps.2.1 c5wJLn 7 0 0 0 [] rfl
  have h4 := claim5_cmp_jumps.2.2.1 c5wJG 9 0 0 0 [] rfl
  have h5 := claim5_cmp_jumps.2.2.2.1 c5wJLE 11 0 0 0 [] rfl
  have h6 := claim5_cmp_jumps.2.2.2.2 c5wJGE 13 0 0 0 [] rfl
  rw [h1, h2, h3, h4, h5, h6]
  refine ⟨by decide, rfl, rfl, by decide, by decide, by decide, by decide, by decide⟩

/-- C6 (amended): for every call of the `print` or `println` builtin,
each argument in order is evaluated and then printed — by `println` with
`PRINT_STR` when it is a string literal, `FPRINT` when it is a float
expression and `PRINT` otherwise, and by `print` with `FPRINT` for float
expressions and `PRINT` for everything else (only `println`
special-cases string literals); `println` then interns a newline string
and prints it with `PUSH`/`PRINT_STR`; both calls leave the dummy value
0 on the stack.  In particular a string-literal argument of `print` is
printed with `PRINT`, not `PRINT_STR` as claimed. -/
theorem claim6_print_builtins :
    (∀ (args : List AST) (g : CGState) (l1 c1 l2 c2 : Nat), g.class_names = [] →
      genCall (.callExpr (.ident "print" l2 c2) args l1 c1) g =
        emitInt32 (emit (printArgsSpec args g) .PUSH) 0) ∧
    (∀ (args : List AST) (g : CGState) (l1 c1 l2 c2 : Nat), g.class_names = [] →
      genCall (.callExpr (.ident "println" l2 c2) args l1 c1) g =
        emitInt32 (emit (emit (emitInt32 (emit (addString (printlnArgsSpec args g) "\n").2 .PUSH)
          (addString (printlnArgsSpec args g) "\n").1) .PRINT_STR) .PUSH) 0) ∧
    (∀ (s : String) (g : CGState) (l1 c1 l2 c2 l3 c3 : Nat), g.class_names = [] →
      (genCall (.callExpr (.ident "print" l2 c2) [.lit s .STRING l3 c3] l1 c1) g).bytecode =
        g.bytecode ++ Opcode.PUSH_STR.toByte :: int32Bytes (addString g s).1 ++
          Opcode.PRINT.toByte :: Opcode.PUSH.toByte :: int32Bytes 0) ∧
    (∀ (s : String) (g : CGState) (l1 c1 l2 c2 l3 c3 : Nat), g.class_names = [] →
      (genCall (.callExpr (.ident "println" l2 c2) [.lit s .STRING l3 c3] l1 c1) g).bytecode =
        g.bytecode ++ Opcode.PUSH_STR.toByte :: int32Bytes (addString g s).1 ++
          Opcode.PRINT_STR.toByte :: Opcode.PUSH.toByte ::
            int32Bytes (addString (addString g s).2 "\n").1 ++
          Opcode.PRINT_STR.toByte :: Opcode.PUSH.toByte :: int32Bytes 0) := by
  refine ⟨fun args g l1 c1 l2 c2 hg => ?_, fun args g l1 c1 l2 c2 hg => ?_,
    fun s g l1 c1 l2 c2 l3 c3 hg => ?_, fun s g l1 c1 l2 c2 l3 c3 hg => ?_⟩
  · have h : genCall (.callExpr (.ident "print" l2 c2) args l1 c1) g =
        emitInt32 (emit (genPrintArgs args g) .PUSH) 0 := by
      simp [genCall, hg]
    rw [h, genPrintArgs_eq_spec]
  · have h : genCall (.callExpr (.ident "println" l2 c2) args l1 c1) g =
        emitInt32 (emit (emit (emitInt32 (emit (addString (genPrintlnArgs args g) "\n").2 .PUSH)
          (addString (genPrintlnArgs args g) "\n").1) .PRINT_STR) .PUSH) 0 := by
      simp [genCall, hg]
    rw [h, genPrintlnArgs_eq_spec]
  · simp [genCall, hg, genPrintArgs, genExpression_lit, genLiteral_string, isFloatExpr,
      emit, emitInt32, addString_snd_bytecode, List.append_assoc]
  · simp [genCall, hg, genPrintlnArgs, genExpression_lit, genLiteral_string, isFloatExpr,
      emit, emitInt32, addString_snd_bytecode, addString_bytecode_fst, List.append_assoc]

/-- Witness for C6: `print("hi", f, 7)` with `f` a float variable prints
the string-literal argument with `PRINT` (0x0A), the float argument with
`FPRINT` (0x38) and the integer argument with `PRINT`, while `println`
on the same arguments uses `PRINT_STR` (0x0B) for the string literal and
appends the newline `PUSH 1; PRINT_STR`; both end with `PUSH 0`. -/
theorem claim6_witness :
    (genCall (.callExpr (.ident "print" 0 0)
        [.lit "hi" .STRING 0 0, .ident "f" 0 0, .lit "7" .NUMBER 0 0] 0 0)
        c6wG).bytecode =
      [38, 0, 0, 0, 0, 10, 54, 3, 0, 0, 0, 56, 1, 7, 0, 0, 0, 10, 1, 0, 0, 0, 0] ∧
    (genCall (.callExpr (.ident "println" 0 0)
        [.lit "hi" .STRING 0 0, .ident "f" 0 0, .lit "7" .NUMBER 0 0] 0 0)
        c6wG).bytecode =
      [38, 0, 0, 0, 0, 11, 54, 3, 0, 0, 0, 56, 1, 7, 0, 0, 0, 10,
        1, 1, 0, 0, 0, 11, 1, 0, 0, 0, 0] ∧
    (genCall (.callExpr (.ident "print" 0 0) [.lit "hi" .STRING 0 0] 0 0)
        CGState.init).bytecode = [38, 0, 0, 0, 0, 10, 1, 0, 0, 0, 0] ∧
    (genCall (.callExpr (.ident "println" 0 0) [.lit "hi" .STRING 0 0] 0 0)
        CGState.init).bytecode = [38, 0, 0, 0, 0, 11, 1, 1, 0, 0, 0, 11, 1, 0, 0, 0, 0] := by
  have h1 := claim6_print_builtins.1
    [.lit "hi" .STRING 0 0, .ident "f" 0 0, .lit "7" .NUMBER 0 0] c6wG 0 0 0 0 rfl
  have h2 := claim6_print_builtins.2.1
    [.lit "hi" .STRING 0 0, .ident "f" 0 0, .lit "7" .NUMBER 0 0] c6wG 0 0 0 0 rfl
  have h3 := claim6_print_builtins.2.2.1 "hi" CGState.init 0 0 0 0 0 0 rfl
  have h4 := claim6_print_builtins.2.2.2 "hi" CGState.init 0 0 0 0 0 0 rfl
  refine ⟨?_, ?_, h3.trans (by decide), h4.trans (by decide)⟩
  · rw [h1]
    decide
  · rw [h2]
    decide

/-- Counterexample to C6 as stated: the `print` builtin prints the
string-literal argument `"hi"` with `PRINT` (0x0A), not with `PRINT_STR`
(0x0B) as claimed. -/
theorem claim6_counterexample :
    (genCall (.callExpr (.ident "print" 0 0) [.lit "hi" .STRING 0 0] 0 0)
        CGState.init).bytecode =
      [Opcode.PUSH_STR.toByte, 0, 0, 0, 0, Opcode.PRINT.toByte,
        Opcode.PUSH.toByte, 0, 0, 0, 0] ∧
    Opcode.PRINT.toByte ≠ Opcode.PRINT_STR.toByte := by decide

/-- C7 (amended): a LF in the whitespace skipper increments the line
counter, resets the column counter to 1 and then advances past the LF,
incrementing the column — so scanning resumes at column 2, and the first
character of a continuation line is recorded at column 2, not 1. -/
theorem claim7_lf_column (s : LexState) (fuel : Nat) (h1 : s.position < s.source.length)
    (h2 : s.cur = '\n') :
    skipWhitespaceAux (fuel + 1) s =
      skipWhitespaceAux fuel
        { s with position := s.position + 1, line := s.line + 1, column := 2 } := by
  have hws : ¬(s.cur = ' ' ∨ s.cur = '\t' ∨ s.cur = '\r') := by
    rw [h2]
    decide
  conv_lhs => rw [skipWhitespaceAux]
  rw [if_pos h1, if_neg hws, if_pos h2]
  unfold LexState.advance
  rw [if_pos (show ({ s with line := s.line + 1, column := 1 } : LexState).position <
    ({ s with line := s.line + 1, column := 1 } : LexState).source.length from h1)]

/-- Witness for C7: skipping the LF of `"\nb"` from position 0 resumes
at position 1, line 2, column 2. -/
theorem claim7_witness :
    skipWhitespaceAux 2 ⟨['\n', 'b'], 0, 1, 1, false⟩ =
      skipWhitespaceAux 1 ⟨['\n', 'b'], 1, 2, 2, false⟩ :=
  claim7_lf_column ⟨['\n', 'b'], 0, 1, 1, false⟩ 1 (by decide) rfl

/-- Counterexample to C7 as stated: tokenizing `"a\nb"`, the token `b` is
the first non-whitespace character of the line after the LF but is
recorded at column 2, not column 1. -/
theorem claim7_counterexample :
    (tokenize "a\nb").1.getD 1 eofTok = ⟨.IDENTIFIER, "b", 2, 2⟩ ∧ (2 : Nat) ≠ 1 := by decide!

/-- C8: `addString` is idempotent (a second call with the same string
returns the same index and leaves the generator unchanged), and the
returned index is stable under interning further strings in between; it
preserves string-table dedup, so a table built by `addString` calls
contains each string at most once; and `saveToFile` writes exactly the
deduplicated table, entry by entry, so the on-disk table also contains
each string at most once. -/
theorem claim8_string_dedup :
    (∀ (g : CGState) (s : String),
      (addString (addString g s).2 s).1 = (addString g s).1 ∧
      (addString (addString g s).2 s).2 = (addString g s).2) ∧
    (∀ (g : CGState) (s t : String),
      (addString (addString (addString g s).2 t).2 s).1 = (addString g s).1) ∧
    (∀ (g : CGState) (s : String), g.string_table.Nodup →
      (addString g s).2.string_table.Nodup ∧
      (addString g s).2.string_table.count s ≤ 1) ∧
    (∀ g : CGState, saveToFile g =
      u32BytesLE g.string_table.length ++ stringTableBytes g.string_table ++
        u32BytesLE g.bytecode.length ++ g.bytecode) := by
  refine ⟨fun g s => ?_, fun g s t => ?_, fun g s hnd => ?_, fun g => ?_⟩
  · cases h : g.string_table.findIdx? (fun x => x = s) with
    | some i => simp [addString, h]
    | none => simp [addString, h, findIdx_append_self g.string_table s h]
  · cases h1 : g.string_table.findIdx? (fun x => x = s) with
    | some i =>
      cases h2 : g.string_table.findIdx? (fun x => x = t) with
      | some j => simp [addString, h1, h2]
      | none => simp [addString, h1, h2, findIdx_append_some _ _ [t] i h1]
    | none =>
      have hf := findIdx_append_self g.string_table s h1
      cases h2 : (g.string_table ++ [s]).findIdx? (fun x => x = t) with
      | some j => simp [addString, h1, h2, hf]
      | none => simp [addString, h1, h2, findIdx_append_some _ _ [t] _ hf]
  · cases h : g.string_table.findIdx? (fun x => x = s) with
    | some i =>
      constructor
      · simpa [addString, h] using hnd
      · simp only [addString, h]
        exact List.nodup_iff_count_le_one.mp hnd s
    | none =>
      have hs := findIdx_none_not_mem g.string_table s h
      constructor
      · simp only [addString, h]
        refine List.nodup_append.mpr ⟨hnd, List.nodup_singleton s, ?_⟩
        intro a ha hb
        simp at hb
        subst hb
        exact hs ha
      · simp only [addString, h]
        rw [List.count_append]
        rw [List.count_eq_zero_of_not_mem hs]
        simp
  · unfold saveToFile
    rw [foldl_strtab]
    simp

/-- Witness for C8: interning `"x"` twice into the empty generator gives
the same index, a duplicate-free table with at most one `"x"`, and the
serialized image of the empty generator lists its (empty) table. -/
theorem claim8_witness :
    (addString (addString CGState.init "x").2 "x").1 = (addString CGState.init "x").1 ∧
    (addString (addString (addString CGState.init "x").2 "y").2 "x").1 =
      (addString CGState.init "x").1 ∧
    (addString CGState.init "x").2.string_table.Nodup ∧
    (addString CGState.init "x").2.string_table.count "x" ≤ 1 ∧
    saveToFile CGState.init =
      u32BytesLE CGState.init.string_table.length ++
        stringTableBytes CGState.init.string_table ++
        u32BytesLE CGState.init.bytecode.length ++ CGState.init.bytecode :=
  ⟨(claim8_string_dedup.1 CGState.init "x").1,
   claim8_string_dedup.2.1 CGState.init "x" "y",
   (claim8_string_dedup.2.2.1 CGState.init "x" (by simp [CGState.init])).1,
   (claim8_string_dedup.2.2.1 CGState.init "x" (by simp [CGState.init])).2,
   claim8_string_dedup.2.2.2 CGState.init⟩

/-- C9: `DUP` on an empty operand stack is not a stack underflow: `peek`
returns 0, the VM pushes 0 and continues with the error flag untouched;
only `pop` (message `Stack underflow`) and `SWAP` (message
`Stack underflow in SWAP`) report underflow. -/
theorem claim9_dup_underflow :
    (∀ (vm : VMState) (t : List Nat),
      vm.bytecode.drop vm.instruction_pointer = Opcode.DUP.toByte :: t →
      vm.stack = [] →
      executeInstruction vm =
        { vm with instruction_pointer := vm.instruction_pointer + 1, stack := [0] }) ∧
    (∀ vm : VMState, vm.stack = [] →
      peekV vm = 0 ∧ pop vm = (0, vmError vm "Stack underflow")) ∧
    (∀ (vm : VMState) (t : List Nat),
      vm.bytecode.drop vm.instruction_pointer = Opcode.SWAP.toByte :: t →
      vm.stack = [] →
      executeInstruction vm =
        vmError { vm with instruction_pointer := vm.instruction_pointer + 1 }
          "Stack underflow in SWAP") := by
  refine ⟨fun vm t hbc hs => ?_, fun vm hs => ⟨?_, ?_⟩, fun vm t hbc hs => ?_⟩
  · unfold executeInstruction
    rw [readByte_drop vm hbc]
    simp [Opcode.toByte, push, peekV, hs]
  · simp [peekV, hs]
  · simp [pop, hs]
  · unfold executeInstruction
    rw [readByte_drop vm hbc]
    simp [Opcode.toByte, hs]

/-- Witness for C9: `DUP` on the empty stack pushes 0 without error;
`peek` and `pop` on the fresh VM return 0 (`pop` raising the underflow
error); `SWAP` on the empty stack sets the underflow error. -/
theorem claim9_witness :
    (executeInstruction { vmNew with bytecode := [8] }).stack = [0] ∧
    (executeInstruction { vmNew with bytecode := [8] }).error_flag = false ∧
    peekV vmNew = 0 ∧
    pop vmNew = (0, vmError vmNew "Stack underflow") ∧
    (executeInstruction { vmNew with bytecode := [9] }).error_flag = true ∧
    (executeInstruction { vmNew with bytecode := [9] }).error_message =
      "Stack underflow in SWAP" := by
  have h1 := claim9_dup_underflow.1 { vmNew with bytecode := [8] } [] rfl rfl
  have h2 := claim9_dup_underflow.2.1 vmNew rfl
  have h3 := claim9_dup_underflow.2.2 { vmNew with bytecode := [9] } [] rfl rfl
  rw [h1, h3]
  exact ⟨rfl, rfl, h2.1, h2.2, rfl, rfl⟩

/-- C10: `FDIV` pops the divisor `b` and then the dividend `a` from the
FPU stack; when `b = 0` it halts the VM with the error flag set and
message `FPU division by zero` (both operands already popped), and
otherwise it pushes `a / b`. -/
theorem claim10_fdiv_zero (vm : VMState) (t : List Nat) (b a : ℚ) (r : List ℚ)
    (hbc : vm.bytecode.drop vm.instruction_pointer = Opcode.FDIV.toByte :: t)
    (hr : vm.fpu_regs = b :: a :: r) (ht : vm.fpu_top = 0) :
    (b = 0 → executeInstruction vm =
      vmError { vm with instruction_pointer := vm.instruction_pointer + 1,
                        fpu_regs := 0 :: 0 :: r, fpu_top := 2 } "FPU division by zero") ∧
    (b ≠ 0 → executeInstruction vm =
      { vm with instruction_pointer := vm.instruction_pointer + 1,
                fpu_regs := 0 :: a / b :: r, fpu_top := 1 }) := by
  unfold executeInstruction
  rw [readByte_drop vm hbc]
  constructor
  · intro hb
    simp [Opcode.toByte, fpop, fpush, hr, ht, hb]
  · intro hb
    simp [Opcode.toByte, fpop, fpush, hr, ht, hb]

/-- Witness for C10: `FDIV` with divisor 0 halts with the
division-by-zero error and both operands popped; `FDIV` computing
`6 / 2` pushes 3 with no error. -/
theorem claim10_witness :
    (executeInstruction c10wErr).error_flag = true ∧
    (executeInstruction c10wErr).halted = true ∧
    (executeInstruction c10wErr).error_message = "FPU division by zero" ∧
    (executeInstruction c10wOk).fpu_regs = [0, 3, 0, 0, 0, 0, 0, 0] ∧
    (executeInstruction c10wOk).fpu_top = 1 ∧
    (executeInstruction c10wOk).error_flag = false := by
  have h1 := (claim10_fdiv_zero c10wErr [] 0 2 [0, 0, 0, 0, 0, 0] rfl rfl rfl).1 rfl
  have h2 := (claim10_fdiv_zero c10wOk [] 2 6 [0, 0, 0, 0, 0, 0] rfl rfl rfl).2 (by norm_num)
  rw [h1, h2]
  refine ⟨rfl, rfl, rfl, by norm_num, rfl, rfl⟩

end G0C
